import Mathlib

/-!
Verification of the Dymium provider application (Rust, Tauri) against its
natural-language specification.  The development shallowly embeds the
relevant parts of the source:

* `src-tauri/src/services/config.rs`   — `AppConfig`, `AuthMode`, `TokenState`, loading
* `src-tauri/src/services/opencode.rs` — consumer-config synchronizer (`ensure_dymium_provider`,
  `compute_base_url`, `resolve_token`, `write_auth_json`, `do_clear_dymium_auth`)
* `src-tauri/src/services/token.rs`    — credential lifecycle (`start_refresh_loop`,
  `authenticate`, grants, `verify_endpoint`, `log_out`)
* `src-tauri/src/lib.rs`               — tray-status classification (`update_tray_status`)

File-system contents (the consumer JSON documents, the token file) are made
explicit inputs and outputs; HTTP interactions are oracles supplied as
explicit parameters.  Rust panics (`unwrap` on `None`) are modelled by a
dedicated `crash` outcome, distinct from returned error values.
-/

/-! ## String helpers

Executable models of the Rust string primitives used by the source
(`str::contains`, `str::rfind`, `trim_end_matches('/')`, `str::trim`,
`str::to_lowercase`).  They operate on the character list of a `String`;
all source-relevant strings are ASCII, where character-wise and byte-wise
indexing agree. -/

/-- Positions (character indices) at which `pat` occurs in `l`. -/
def subPositions (l pat : List Char) : List Nat :=
  (List.range (l.length + 1)).filter (fun i => pat.isPrefixOf (l.drop i))

/-- Rust `str::contains` (substring occurrence). -/
def strContainsSub (s pat : String) : Bool :=
  !(subPositions s.data pat.data).isEmpty

/-- Rust `str::rfind` for a substring pattern: index of the last occurrence. -/
def strRfindSub (s pat : String) : Option Nat :=
  (subPositions s.data pat.data).getLast?

/-- Rust `trim_end_matches('/')`: drop every trailing `/`. -/
def trimEndSlashes (s : String) : String :=
  String.mk ((s.data.reverse.dropWhile (fun c => c == '/')).reverse)

/-- Rust `str::trim`: drop leading and trailing whitespace. -/
def strTrim (s : String) : String :=
  String.mk (((s.data.dropWhile Char.isWhitespace).reverse.dropWhile Char.isWhitespace).reverse)

/-- Rust `str::to_lowercase`, restricted to character-wise lowering
(adequate: every string the source lowercases and matches on is ASCII). -/
def strLower (s : String) : String :=
  String.mk (s.data.map Char.toLower)

/-- Rust `str::is_empty` on an optional string, matching the
`.as_ref().filter(|s| !s.is_empty())` idiom of the source. -/
def nonEmptyOpt (o : Option String) : Option String :=
  match o with
  | some s => if s = "" then none else some s
  | none => none

/-! ## Configuration data model (`services/config.rs`) -/

/-- `AuthMode` (config.rs): OAuth (Keycloak) or static API key. -/
inductive AuthMode
  | oauth
  | staticKey
deriving DecidableEq

/-- `AppConfig` (config.rs): the durable application configuration. -/
structure AppConfig where
  auth_mode : AuthMode
  llm_endpoint : String
  keycloak_url : String
  client_id : String
  username : String
  realm : String
  refresh_interval_seconds : Nat
  ghostllm_app : Option String
  client_secret : Option String
  password : Option String
  refresh_token : Option String
  static_api_key : Option String
deriving DecidableEq

/-- `AppConfig::default` (config.rs lines 116-133). -/
def AppConfig.default : AppConfig where
  auth_mode := AuthMode.oauth
  llm_endpoint := "http://spoofcorp.llm.dymium.home:9090/v1"
  keycloak_url := "https://192.168.50.100:9173"
  client_id := "dymium"
  username := "dev_mcp_admin@dymium.io"
  realm := "dymium"
  refresh_interval_seconds := 60
  ghostllm_app := none
  client_secret := none
  password := none
  refresh_token := none
  static_api_key := none

/-- `AppConfig::is_static_key_mode`. -/
def AppConfig.is_static_key_mode (c : AppConfig) : Bool :=
  c.auth_mode = AuthMode.staticKey

/-- `AppConfig::is_oauth_mode`. -/
def AppConfig.is_oauth_mode (c : AppConfig) : Bool :=
  c.auth_mode = AuthMode.oauth

/-- `ConfigError` (config.rs): error cases of configuration loading. -/
inductive ConfigError
  | readError (msg : String)
  | parseError (msg : String)
  | noDirError
deriving DecidableEq

/-- The state of the configuration file on disk, as seen by
`AppConfig::try_load`: the file may be missing, unreadable, syntactically
malformed, or parse to a configuration value (serde field defaults already
applied). -/
inductive ConfigFile
  | missing
  | unreadable (msg : String)
  | malformed (msg : String)
  | valid (c : AppConfig)
deriving DecidableEq

/-- `AppConfig::try_load` (config.rs lines 159-164): read and parse the
config file, propagating IO and parse failures. -/
def AppConfig.try_load (f : ConfigFile) : Except ConfigError AppConfig :=
  match f with
  | ConfigFile.missing => Except.error (ConfigError.readError "No such file or directory")
  | ConfigFile.unreadable m => Except.error (ConfigError.readError m)
  | ConfigFile.malformed m => Except.error (ConfigError.parseError m)
  | ConfigFile.valid c => Except.ok c

/-- `AppConfig::load` (config.rs lines 154-156):
`Self::try_load().unwrap_or_default()`. -/
def AppConfig.load (f : ConfigFile) : AppConfig :=
  match AppConfig.try_load f with
  | Except.ok c => c
  | Except.error _ => AppConfig.default

/-! ## Effective base URL (`opencode.rs`, `compute_base_url`) -/

/-- `OpenCodeService::compute_base_url` (opencode.rs lines 363-399).
Trim trailing slashes; in OAuth mode with a (trimmed) non-empty app name,
splice the app before the last `/v1` occurrence, or append `/{app}/v1`
when `/v1` does not occur; otherwise return the trimmed endpoint. -/
def compute_base_url (config : AppConfig) : String :=
  let endpoint := trimEndSlashes config.llm_endpoint
  if config.is_oauth_mode then
    match config.ghostllm_app with
    | some app0 =>
      let app := strTrim app0
      if app = "" then endpoint
      else
        match strRfindSub endpoint "/v1" with
        | some pos => endpoint.take pos ++ "/" ++ app ++ endpoint.drop pos
        | none => endpoint ++ "/" ++ app ++ "/v1"
    | none => endpoint
  else endpoint

/-- The effective-endpoint derivation as worded by the specification
(§3 EffectiveEndpoint, §4.3 step description): used to compare the source
function against the spec's description. -/
def specEffectiveEndpoint (config : AppConfig) : String :=
  let trimmed := trimEndSlashes config.llm_endpoint
  let appConfigured := (config.ghostllm_app.map strTrim).getD ""
  if config.auth_mode = AuthMode.oauth ∧ appConfigured ≠ "" then
    match strRfindSub trimmed "/v1" with
    | some pos => trimmed.take pos ++ "/" ++ appConfigured ++ trimmed.drop pos
    | none => trimmed ++ "/" ++ appConfigured ++ "/v1"
  else trimmed

/-! ## Tray-status classification (`lib.rs`, `update_tray_status`) -/

/-- The display categories produced by `update_tray_status` for a
`Failed` state (lib.rs lines 143-160). -/
inductive FailureCategory
  | unauthorized
  | endpointTimeout
  | endpointUnreachable
  | opencodeConfigError
  | genericError
deriving DecidableEq

/-- The `TokenState::Failed` arm of `update_tray_status` (lib.rs lines
143-160): classify the error text into a display category by
case-insensitive substring matching. -/
def classifyFailedError (error : String) : FailureCategory :=
  let normalized := strLower error
  if strContainsSub normalized "401"
      || strContainsSub normalized "unauthorized"
      || strContainsSub normalized "invalid api key"
      || strContainsSub normalized "invalid oidc token" then
    FailureCategory.unauthorized
  else if strContainsSub normalized "timed out" then
    FailureCategory.endpointTimeout
  else if strContainsSub normalized "cannot reach llm endpoint" then
    FailureCategory.endpointUnreachable
  else if strContainsSub normalized "failed to update opencode config" then
    FailureCategory.opencodeConfigError
  else
    FailureCategory.genericError

/-- The failure classification as worded by the specification (§4.1
"Failure classification for user display"): marker lists, matched
case-insensitively in priority order. -/
def specClassify (msg : String) : FailureCategory :=
  let n := strLower msg
  if ["401", "unauthorized", "invalid api key", "invalid oidc token"].any
      (fun m => strContainsSub n m) then
    FailureCategory.unauthorized
  else if strContainsSub n "timed out" then FailureCategory.endpointTimeout
  else if strContainsSub n "cannot reach llm endpoint" then FailureCategory.endpointUnreachable
  else if strContainsSub n "failed to update opencode config" then FailureCategory.opencodeConfigError
  else FailureCategory.genericError

/-! ## A JSON value model (`serde_json::Value`)

Objects are association lists of string keys; lookup and replacement
follow the first occurrence of a key (`serde_json::Map` keys are unique,
so this coincides with map semantics). -/

/-- `serde_json::Value`. -/
inductive Json
  | null
  | bool (b : Bool)
  | num (n : Int)
  | str (s : String)
  | arr (xs : List Json)
  | obj (fields : List (String × Json))

/-- Lookup of a key in an object's field list (`Map::get`). -/
def lookupKey (k : String) : List (String × Json) → Option Json
  | [] => none
  | (k', v) :: rest => if k' = k then some v else lookupKey k rest

/-- Replace the value at a key, or append the binding when the key is
absent (`Map::insert` / `Entry::or_insert` followed by mutation). -/
def setKey (k : String) (v : Json) : List (String × Json) → List (String × Json)
  | [] => [(k, v)]
  | (k', w) :: rest => if k' = k then (k, v) :: rest else (k', w) :: setKey k v rest

/-- Remove a key (`Map::remove`). -/
def removeKey (k : String) : List (String × Json) → List (String × Json)
  | [] => []
  | (k', w) :: rest => if k' = k then rest else (k', w) :: removeKey k rest

/-! ## The consumer-config synchronizer (`opencode.rs`)

`ensure_dymium_provider` reads, merges and writes two JSON documents
(`opencode.json`, `auth.json`) plus the plugin files.  The file system is
an explicit `Disk` value; every `fs::write` is recorded as a `WriteEv`.
Rust panics (`Option::unwrap` on `None`, reached when a document has an
unexpected JSON type) are modelled by the `crash` outcome. -/

/-- What a JSON document file on disk may hold: nothing, bytes that fail
to parse, or a parsed JSON value. -/
inductive DiskDoc
  | absent
  | malformed (msg : String)
  | parsed (j : Json)

/-- The file-system slice the synchronizer touches. -/
structure Disk where
  opencodeDoc : DiskDoc
  authDoc : DiskDoc
  tokenFile : Option String

/-- One `fs::write` performed by the synchronizer. -/
inductive WriteEv
  | pluginPackageJson
  | pluginIndexTs
  | opencodeJson (j : Json)
  | authJson (j : Json)

/-- Is a write event a write of the consumer config document
(`opencode.json`)? -/
def WriteEv.isOpencodeWrite : WriteEv → Bool
  | WriteEv.opencodeJson _ => true
  | _ => false

/-- `OpenCodeError` (opencode.rs lines 12-20). -/
inductive OpenCodeError
  | ioError (msg : String)
  | jsonError (msg : String)
  | noHomeDir
deriving DecidableEq

/-- Result of a synchronizer step: a Rust panic (`unwrap` on `None`),
a returned error, or success. -/
inductive Outcome (α : Type)
  | crash (msg : String)
  | err (e : OpenCodeError)
  | ok (a : α)

/-- `OpenCodeService::resolve_token` (opencode.rs lines 330-354): prefer
the trimmed token file content when non-empty, else the static API key in
static-key mode; `none` models the `Err(NotFound)` return. -/
def resolve_token (config : AppConfig) (tokenFile : Option String) : Option String :=
  let fallback :=
    if config.is_static_key_mode then
      match config.static_api_key with
      | some key => if key = "" then none else some key
      | none => none
    else none
  match tokenFile with
  | some content =>
    let token := strTrim content
    if token = "" then fallback else some token
  | none => fallback

/-- The fixed model catalog written when the `dymium` provider entry is
created (opencode.rs lines 165-189). -/
def dymiumModelCatalog : Json :=
  Json.obj
    [("claude-opus-4-5", Json.obj
        [("name", Json.str "Claude Opus 4.5 (via Dymium)"),
         ("tool_call", Json.bool true),
         ("temperature", Json.bool true),
         ("attachment", Json.bool true),
         ("reasoning", Json.bool true),
         ("interleaved", Json.obj [("field", Json.str "reasoning_content")]),
         ("limit", Json.obj [("context", Json.num 200000), ("output", Json.num 16384)])]),
     ("claude-sonnet-4", Json.obj
        [("name", Json.str "Claude Sonnet 4 (via Dymium)"),
         ("tool_call", Json.bool true),
         ("temperature", Json.bool true),
         ("attachment", Json.bool true),
         ("reasoning", Json.bool false),
         ("limit", Json.obj [("context", Json.num 200000), ("output", Json.num 16384)])])]

/-- The fields of a freshly created `dymium` provider entry (opencode.rs
lines 148-191). -/
def newDymiumEntryFields (effectiveBaseUrl : String) (apiKey : Option String) :
    List (String × Json) :=
  let options0 : List (String × Json) := [("baseURL", Json.str effectiveBaseUrl)]
  let options :=
    match apiKey with
    | some key => setKey "apiKey" (Json.str key) options0
    | none => options0
  [("npm", Json.str "@ai-sdk/openai-compatible"),
   ("name", Json.str "Dymium"),
   ("api", Json.str effectiveBaseUrl),
   ("options", Json.obj options),
   ("models", dymiumModelCatalog)]

/-- The freshly created `dymium` provider entry (opencode.rs lines
148-191). -/
def newDymiumEntry (effectiveBaseUrl : String) (apiKey : Option String) : Json :=
  Json.obj (newDymiumEntryFields effectiveBaseUrl apiKey)

/-- `obj.get(k).and_then(|v| v.as_str()).unwrap_or("")`. -/
def strFieldOr (fields : List (String × Json)) (k : String) : String :=
  match lookupKey k fields with
  | some (Json.str s) => s
  | _ => ""

/-- The update of the existing entry's `options` object (opencode.rs
lines 114-146): set `baseURL` when it differs, then set `apiKey` when a
key resolved and it differs; report whether either changed. -/
def optsUpdate (effectiveBaseUrl : String) (apiKey : Option String)
    (opts : List (String × Json)) : List (String × Json) × Bool :=
  let currentBase := strFieldOr opts "baseURL"
  let (opts1, ch2) :=
    if currentBase ≠ effectiveBaseUrl then
      (setKey "baseURL" (Json.str effectiveBaseUrl) opts, true)
    else (opts, false)
  let (opts2, ch3) :=
    match apiKey with
    | some key =>
      let currentKey := strFieldOr opts1 "apiKey"
      if currentKey ≠ key then (setKey "apiKey" (Json.str key) opts1, true)
      else (opts1, false)
    | none => (opts1, false)
  (opts2, ch2 || ch3)

/-- The in-place update of an existing `dymium` provider entry
(opencode.rs lines 95-146): update `api`, then the options via
`optsUpdate`, each field only when it differs; report whether anything
changed.  A non-object `options` value makes the source panic
(`as_object_mut().unwrap()`). -/
def updateExistingEntry (effectiveBaseUrl : String) (apiKey : Option String)
    (entry : List (String × Json)) : Outcome (List (String × Json) × Bool) :=
  let currentApi := strFieldOr entry "api"
  let (entry1, ch1) :=
    if currentApi ≠ effectiveBaseUrl then
      (setKey "api" (Json.str effectiveBaseUrl) entry, true)
    else (entry, false)
  match (lookupKey "options" entry1).getD (Json.obj []) with
  | Json.obj opts =>
    let (opts2, ch23) := optsUpdate effectiveBaseUrl apiKey opts
    Outcome.ok (setKey "options" (Json.obj opts2) entry1, ch1 || ch23)
  | _ => Outcome.crash "options is not a JSON object"

/-- A stale plugin entry removed by the `retain` call (opencode.rs lines
208-212): a string containing `dymium-opencode-plugin`. -/
def isStalePluginEntry (p : Json) : Bool :=
  match p with
  | Json.str s => strContainsSub s "dymium-opencode-plugin"
  | _ => false

/-- A plugin entry recognised as the npm auth plugin (opencode.rs lines
219-223): a string containing `dymium-auth-plugin`. -/
def isAuthPluginEntry (p : Json) : Bool :=
  match p with
  | Json.str s => strContainsSub s "dymium-auth-plugin"
  | _ => false

/-- The plugin-list maintenance (opencode.rs lines 196-227): drop stale
entries referencing the deprecated local-path plugin, then append the npm
plugin entry unless one is already present; report whether either list
operation changed anything. -/
def pluginListUpdate (plugins : List Json) : List Json × Bool :=
  let plugins1 := plugins.filter (fun p => !isStalePluginEntry p)
  let changed2 : Bool := plugins1.length ≠ plugins.length
  let (plugins2, changed3) :=
    if plugins1.any isAuthPluginEntry then (plugins1, false)
    else (plugins1 ++ [Json.str "dymium-auth-plugin@latest"], true)
  (plugins2, changed2 || changed3)

/-- The pure core of `ensure_dymium_provider` (opencode.rs lines 73-227):
given the computed effective base URL and resolved key, transform the
parsed `opencode.json` document and report whether it changed.  Panics of
the source (`as_object_mut().unwrap()` on the top level, the `provider`
section or the `dymium` entry; `as_array_mut().unwrap()` on `plugin`)
surface as `crash`. -/
def ensureCore (effectiveBaseUrl : String) (apiKey : Option String) (doc : Json) :
    Outcome (Json × Bool) :=
  match doc with
  | Json.obj fields =>
    match (lookupKey "provider" fields).getD (Json.obj []) with
    | Json.obj providersMap =>
      let step1 : Outcome (List (String × Json) × Bool) :=
        match lookupKey "dymium" providersMap with
        | some existing =>
          match existing with
          | Json.obj entry =>
            match updateExistingEntry effectiveBaseUrl apiKey entry with
            | Outcome.ok (entry', ch) =>
              Outcome.ok (setKey "dymium" (Json.obj entry') providersMap, ch)
            | Outcome.crash m => Outcome.crash m
            | Outcome.err e => Outcome.err e
          | _ => Outcome.crash "dymium provider entry is not a JSON object"
        | none =>
          Outcome.ok
            (setKey "dymium" (newDymiumEntry effectiveBaseUrl apiKey) providersMap, true)
      match step1 with
      | Outcome.ok (providersMap', changed1) =>
        let fields1 := setKey "provider" (Json.obj providersMap') fields
        match (lookupKey "plugin" fields1).getD (Json.arr []) with
        | Json.arr plugins =>
          let (plugins2, changed23) := pluginListUpdate plugins
          let fields2 := setKey "plugin" (Json.arr plugins2) fields1
          Outcome.ok (Json.obj fields2, changed1 || changed23)
        | _ => Outcome.crash "plugin section is not a JSON array"
      | Outcome.crash m => Outcome.crash m
      | Outcome.err e => Outcome.err e
    | _ => Outcome.crash "provider section is not a JSON object"
  | _ => Outcome.crash "opencode.json top level is not a JSON object"

/-- The skeleton document used when `opencode.json` is absent
(opencode.rs lines 68-70). -/
def skeletonDoc : Json :=
  Json.obj [("$schema", Json.str "https://opencode.ai/config.json")]

/-- `OpenCodeService::write_auth_json` (opencode.rs lines 402-454): read
`auth.json` (an unparsable file degrades to `{}`), build the `dymium`
record from the RAW configured endpoint and the UNTRIMMED app name, and
upsert it.  A non-object top level makes the source panic. -/
def write_auth_json (config : AppConfig) (token : String) (authDoc : DiskDoc) :
    Outcome Json :=
  let auth0 : Json :=
    match authDoc with
    | DiskDoc.parsed j => j
    | DiskDoc.malformed _ => Json.obj []
    | DiskDoc.absent => Json.obj []
  let authType : String := if config.is_static_key_mode then "static" else "oauth"
  let base : List (String × Json) :=
    [("type", Json.str authType), ("key", Json.str token),
     ("endpoint", Json.str config.llm_endpoint)]
  let dymiumAuth : Json :=
    match config.ghostllm_app with
    | some app => if app = "" then Json.obj base else Json.obj (setKey "app" (Json.str app) base)
    | none => Json.obj base
  match auth0 with
  | Json.obj m => Outcome.ok (Json.obj (setKey "dymium" dymiumAuth m))
  | _ => Outcome.crash "auth.json top level is not a JSON object"

/-- `OpenCodeService::ensure_dymium_provider` (opencode.rs lines 52-240):
write the plugin files, merge the provider entry and plugin list into
`opencode.json` (writing it back only when changed), then unconditionally
update `auth.json` (failing when no credential resolves).  Returns the
writes performed together with the outcome. -/
def ensure_dymium_provider (config : AppConfig) (disk : Disk) :
    List WriteEv × Outcome Disk :=
  -- ensure_plugin (opencode.rs lines 243-320): unconditionally writes
  -- package.json and index.ts (fixed contents).
  let pluginWrites : List WriteEv := [WriteEv.pluginPackageJson, WriteEv.pluginIndexTs]
  match disk.opencodeDoc with
  | DiskDoc.malformed m => (pluginWrites, Outcome.err (OpenCodeError.jsonError m))
  | other =>
    let doc0 : Json :=
      match other with
      | DiskDoc.parsed j => j
      | _ => skeletonDoc
    let apiKey := resolve_token config disk.tokenFile
    let effectiveBaseUrl := compute_base_url config
    match ensureCore effectiveBaseUrl apiKey doc0 with
    | Outcome.crash m => (pluginWrites, Outcome.crash m)
    | Outcome.err e => (pluginWrites, Outcome.err e)
    | Outcome.ok (doc1, changed) =>
      let configWrites := if changed then [WriteEv.opencodeJson doc1] else []
      let disk1 : Disk :=
        { disk with opencodeDoc := if changed then DiskDoc.parsed doc1 else disk.opencodeDoc }
      -- update_auth_json (opencode.rs lines 323-327)
      match resolve_token config disk.tokenFile with
      | none =>
        (pluginWrites ++ configWrites,
         Outcome.err (OpenCodeError.ioError
           "No token available (token file missing and no static API key configured)"))
      | some token =>
        match write_auth_json config token disk1.authDoc with
        | Outcome.crash m => (pluginWrites ++ configWrites, Outcome.crash m)
        | Outcome.err e => (pluginWrites ++ configWrites, Outcome.err e)
        | Outcome.ok auth1 =>
          (pluginWrites ++ configWrites ++ [WriteEv.authJson auth1],
           Outcome.ok { disk1 with authDoc := DiskDoc.parsed auth1 })

/-- `OpenCodeService::do_clear_dymium_auth` (opencode.rs lines 464-483):
remove the `dymium` entry from `auth.json`, writing back only when an
entry was removed; a missing or non-object document is not an error. -/
def do_clear_dymium_auth (authDoc : DiskDoc) : DiskDoc × List WriteEv :=
  match authDoc with
  | DiskDoc.absent => (DiskDoc.absent, [])
  | DiskDoc.malformed m => (DiskDoc.malformed m, [])
  | DiskDoc.parsed j =>
    match j with
    | Json.obj m =>
      match lookupKey "dymium" m with
      | some _ =>
        let j' := Json.obj (removeKey "dymium" m)
        (DiskDoc.parsed j', [WriteEv.authJson j'])
      | none => (DiskDoc.parsed j, [])
    | _ => (DiskDoc.parsed j, [])

/-! ## Token lifecycle (`token.rs`)

The lifecycle functions are embedded as explicit state transformers over
`SvcState` (the `TokenService` fields that matter: `config` and `state`,
plus `last_refresh`).  Network interactions and the outcomes of the
file-system side effects (`write_token`, `ensure_dymium_provider`,
`AppConfig::save`) are oracles supplied in an `AuthEnv`; every observable
action (state assignment, config persistence, grant start, …) is recorded
as an event so that temporal claims can be stated over the event list. -/

/-- `TokenState` as used by the running code: `token.rs` lines 126 and 203
assign `TokenState::Verifying` and `lib.rs` line 139 matches on it, so the
state space includes a `verifying` phase (the enum declaration printed in
config.rs lines 32-43 omits the variant the rest of the code uses). -/
inductive TokenState
  | idle
  | authenticating
  | verifying
  | authenticated (token : String) (expiresAt : Int)
  | failed (error : String)
deriving DecidableEq

/-- `TokenError` (token.rs lines 14-34). -/
inductive TokenError
  | invalidUrl
  | missingClientSecret
  | missingPassword
  | invalidResponse
  | authFailed (status : Nat) (body : String)
  | httpError (msg : String)
  | configError (msg : String)
  | ioError (msg : String)
  | keystoreError (msg : String)
deriving DecidableEq

/-- The `thiserror` display rendering of a `TokenError` (the `#[error]`
attributes, token.rs lines 14-34); this is the text stored in
`TokenState::Failed`. -/
def TokenError.message : TokenError → String
  | TokenError.invalidUrl => "Invalid URL"
  | TokenError.missingClientSecret => "Missing client secret"
  | TokenError.missingPassword => "Missing password"
  | TokenError.invalidResponse => "Invalid response"
  | TokenError.authFailed status body => "Auth failed (" ++ toString status ++ "): " ++ body
  | TokenError.httpError m => "HTTP error: " ++ m
  | TokenError.configError m => "Config error: " ++ m
  | TokenError.ioError m => "IO error: " ++ m
  | TokenError.keystoreError m => "Keystore error: " ++ m

/-- `KeycloakTokenResponse` (token.rs lines 37-44). -/
structure KeycloakTokenResponse where
  access_token : String
  expires_in : Int
  refresh_token : Option String
  refresh_expires_in : Option Int
  token_type : String
deriving DecidableEq

/-- `http::StatusCode::is_success` — 2xx. -/
def isSuccessStatus (s : Nat) : Bool :=
  200 ≤ s && s ≤ 299

/-- Rust `str::ends_with`. -/
def strEndsWith (s pat : String) : Bool :=
  pat.data.isSuffixOf s.data

/-- First occurrence of a substring (Rust `str::find`). -/
def strFindSub (s pat : String) : Option Nat :=
  (subPositions s.data pat.data).head?

/-- `extract_hostname` (token.rs lines 532-544): strip the scheme and take
the host part up to the first `/` or `:`. -/
def extract_hostname (url : String) : String :=
  let afterScheme :=
    match strFindSub url "://" with
    | some i => url.drop (i + 3)
    | none => url
  String.mk (afterScheme.data.takeWhile (fun c => !(c == '/' || c == ':')))

/-- `AppConfig::token_endpoint_url` (config.rs lines 178-183). -/
def AppConfig.token_endpoint_url (c : AppConfig) : String :=
  c.keycloak_url ++ "/realms/" ++ c.realm ++ "/protocol/openid-connect/token"

/-- Outcome of the verification GET issued by `verify_endpoint`: a
transport error classified by `reqwest` (connect / timeout / other), or a
response with its status code (and the `Display` rendering of the status,
used verbatim in the generic error message). -/
inductive VerifyHttp
  | connectErr
  | timeoutErr
  | otherErr (msg : String)
  | response (status : Nat) (statusDisplay : String) (body : String)

/-- The models-listing URL `verify_endpoint` requests (token.rs lines
222-226). -/
def verifyModelsUrl (effectiveTrimmed : String) : String :=
  if strEndsWith effectiveTrimmed "/v1" then effectiveTrimmed ++ "/models"
  else effectiveTrimmed ++ "/v1/models"

/-- `TokenService::verify_endpoint` (token.rs lines 217-266): classify the
outcome of the authenticated GET against the effective endpoint.  Every
failure—including 401—is returned as `TokenError::ConfigError` with a
distinguishing message text. -/
def verify_endpoint (config : AppConfig) (outcome : VerifyHttp) : Except TokenError Unit :=
  let effectiveUrl := compute_base_url config
  let effectiveTrimmed := trimEndSlashes effectiveUrl
  match outcome with
  | VerifyHttp.connectErr =>
    Except.error (TokenError.configError
      ("Cannot reach LLM endpoint (" ++ effectiveTrimmed ++ ")"))
  | VerifyHttp.timeoutErr =>
    Except.error (TokenError.configError
      ("LLM endpoint timed out (" ++ effectiveTrimmed ++ ")"))
  | VerifyHttp.otherErr m =>
    Except.error (TokenError.configError ("LLM endpoint error: " ++ m))
  | VerifyHttp.response status statusDisplay _ =>
    if isSuccessStatus status then Except.ok ()
    else if status = 401 then
      Except.error (TokenError.configError
        "LLM endpoint rejected the API key (401 Unauthorized)")
    else
      Except.error (TokenError.configError
        ("LLM endpoint returned " ++ statusDisplay ++ " â€” check endpoint URL"))

/-- Outcome of a grant POST: transport failure, or a response carrying a
status, the parse of its JSON body, and its raw text. -/
inductive GrantHttp
  | netErr (msg : String)
  | resp (status : Nat) (parsedBody : Except String KeycloakTokenResponse) (bodyText : String)

/-- The oracles a lifecycle run consumes: the clock, the two grant
endpoints, the outcomes of the local side effects, and the verification
request. -/
structure AuthEnv where
  now : Int
  refreshGrant : GrantHttp
  passwordGrant : GrantHttp
  writeTokenErr : Option String
  ensureErr : Option String
  verify : VerifyHttp

/-- The mutable `TokenService` fields (token.rs lines 47-52). -/
structure SvcState where
  config : AppConfig
  state : TokenState
  lastRefresh : Option Int

/-- Observable actions of a lifecycle run, in program order. -/
inductive Ev
  | setState (s : TokenState)
  | saveConfigAttempt (c : AppConfig)
  | writeTokenFile (t : String)
  | ensureProviderCall (c : AppConfig)
  | refreshGrantStart (c : AppConfig)
  | passwordGrantStart (c : AppConfig)
  | verifyStart

/-- The state assignments within an event list. -/
def stateEvents (evs : List Ev) : List TokenState :=
  evs.filterMap (fun e => match e with | Ev.setState s => some s | _ => none)

/-- `TokenService::perform_password_grant` (token.rs lines 269-307).  The
`passwordGrantStart` event marks entry into the function. -/
def perform_password_grant (env : AuthEnv) (svc : SvcState) :
    List Ev × Except TokenError KeycloakTokenResponse :=
  let evs := [Ev.passwordGrantStart svc.config]
  match nonEmptyOpt svc.config.client_secret with
  | none => (evs, Except.error TokenError.missingClientSecret)
  | some _ =>
    match nonEmptyOpt svc.config.password with
    | none => (evs, Except.error TokenError.missingPassword)
    | some _ =>
      match env.passwordGrant with
      | GrantHttp.netErr m => (evs, Except.error (TokenError.httpError m))
      | GrantHttp.resp status parsedBody bodyText =>
        if isSuccessStatus status then
          match parsedBody with
          | Except.ok r => (evs, Except.ok r)
          | Except.error m => (evs, Except.error (TokenError.httpError m))
        else (evs, Except.error (TokenError.authFailed status bodyText))

/-- `TokenService::perform_refresh_token_grant` (token.rs lines 310-356):
on a non-2xx response with status 400 or 401 the stored refresh token is
cleared from the config and a save is attempted before the error is
returned; any other failure leaves the config untouched. -/
def perform_refresh_token_grant (env : AuthEnv) (svc : SvcState) :
    SvcState × List Ev × Except TokenError KeycloakTokenResponse :=
  let evs := [Ev.refreshGrantStart svc.config]
  match nonEmptyOpt svc.config.client_secret with
  | none => (svc, evs, Except.error TokenError.missingClientSecret)
  | some _ =>
    match env.refreshGrant with
    | GrantHttp.netErr m => (svc, evs, Except.error (TokenError.httpError m))
    | GrantHttp.resp status parsedBody bodyText =>
      if isSuccessStatus status then
        match parsedBody with
        | Except.ok r => (svc, evs, Except.ok r)
        | Except.error m => (svc, evs, Except.error (TokenError.httpError m))
      else
        if status = 400 ∨ status = 401 then
          let config' := { svc.config with refresh_token := none }
          ({ svc with config := config' },
           evs ++ [Ev.saveConfigAttempt config'],
           Except.error (TokenError.authFailed status bodyText))
        else (svc, evs, Except.error (TokenError.authFailed status bodyText))

/-- `TokenService::handle_successful_auth` (token.rs lines 178-213):
store a returned refresh token (best effort), write the access token,
synchronize the consumer config, verify, and transition
`Verifying → Authenticated`. -/
def handle_successful_auth (env : AuthEnv) (svc : SvcState) (r : KeycloakTokenResponse) :
    SvcState × List Ev × Except TokenError Unit :=
  let expiresAt := env.now + r.expires_in
  let (svc1, evs1) :=
    match r.refresh_token with
    | some rt =>
      let config' := { svc.config with refresh_token := some rt }
      ({ svc with config := config' }, [Ev.saveConfigAttempt config'])
    | none => (svc, [])
  let evs2 := evs1 ++ [Ev.writeTokenFile r.access_token]
  match env.writeTokenErr with
  | some m => (svc1, evs2, Except.error (TokenError.ioError m))
  | none =>
    let evs3 := evs2 ++ [Ev.ensureProviderCall svc1.config]
    match env.ensureErr with
    | some m =>
      (svc1, evs3,
       Except.error (TokenError.configError ("Failed to update OpenCode config: " ++ m)))
    | none =>
      let svc2 := { svc1 with state := TokenState.verifying }
      let evs4 := evs3 ++ [Ev.setState TokenState.verifying, Ev.verifyStart]
      match verify_endpoint svc1.config env.verify with
      | Except.error e => (svc2, evs4, Except.error e)
      | Except.ok _ =>
        let st := TokenState.authenticated r.access_token expiresAt
        ({ svc2 with state := st, lastRefresh := some env.now },
         evs4 ++ [Ev.setState st], Except.ok ())

/-- `TokenService::authenticate` (token.rs lines 142-175): transition to
`Authenticating`, try the refresh-token grant when a refresh token is
stored, and fall back to the password grant on its failure. -/
def authenticate (env : AuthEnv) (svc : SvcState) :
    SvcState × List Ev × Except TokenError Unit :=
  let svcA := { svc with state := TokenState.authenticating }
  let evsA := [Ev.setState TokenState.authenticating]
  match svcA.config.refresh_token with
  | some _ =>
    let (svc1, evsR, res1) := perform_refresh_token_grant env svcA
    match res1 with
    | Except.ok r =>
      let (svc2, evsH, res2) := handle_successful_auth env svc1 r
      (svc2, evsA ++ evsR ++ evsH, res2)
    | Except.error _ =>
      let (evsP, res2) := perform_password_grant env svc1
      match res2 with
      | Except.ok r =>
        let (svc2, evsH, res3) := handle_successful_auth env svc1 r
        (svc2, evsA ++ evsR ++ evsP ++ evsH, res3)
      | Except.error e => (svc1, evsA ++ evsR ++ evsP, Except.error e)
  | none =>
    let (evsP, res2) := perform_password_grant env svcA
    match res2 with
    | Except.ok r =>
      let (svc2, evsH, res3) := handle_successful_auth env svcA r
      (svc2, evsA ++ evsP ++ evsH, res3)
    | Except.error e => (svcA, evsA ++ evsP, Except.error e)

/-- `TokenService::setup_static_api_key` (token.rs lines 104-139): require
a non-empty static key, write it as the token, synchronize, verify, and
authenticate with a far-future expiry (now + 365 days). -/
def setup_static_api_key (env : AuthEnv) (svc : SvcState) :
    SvcState × List Ev × Except TokenError Unit :=
  match nonEmptyOpt svc.config.static_api_key with
  | none =>
    (svc, [], Except.error (TokenError.configError "No static API key configured"))
  | some apiKey =>
    let svcA := { svc with state := TokenState.authenticating }
    let evs1 := [Ev.setState TokenState.authenticating, Ev.writeTokenFile apiKey]
    match env.writeTokenErr with
    | some m => (svcA, evs1, Except.error (TokenError.ioError m))
    | none =>
      let evs2 := evs1 ++ [Ev.ensureProviderCall svcA.config]
      match env.ensureErr with
      | some m =>
        (svcA, evs2,
         Except.error (TokenError.configError ("Failed to update OpenCode config: " ++ m)))
      | none =>
        let svcV := { svcA with state := TokenState.verifying }
        let evs3 := evs2 ++ [Ev.setState TokenState.verifying, Ev.verifyStart]
        match verify_endpoint svcA.config env.verify with
        | Except.error e => (svcV, evs3, Except.error e)
        | Except.ok _ =>
          let st := TokenState.authenticated apiKey (env.now + 365 * 86400)
          ({ svcV with state := st, lastRefresh := some env.now },
           evs3 ++ [Ev.setState st], Except.ok ())

/-- `TokenService::start_refresh_loop` (token.rs lines 87-101): dispatch
on the auth mode and, on any error, overwrite the state with
`Failed { error: e.to_string() }`. -/
def start_refresh_loop (env : AuthEnv) (svc : SvcState) :
    SvcState × List Ev × Except TokenError Unit :=
  let (svc1, evs, res) :=
    if svc.config.is_static_key_mode then setup_static_api_key env svc
    else authenticate env svc
  match res with
  | Except.error e =>
    let st := TokenState.failed e.message
    ({ svc1 with state := st }, evs ++ [Ev.setState st], res)
  | Except.ok _ => (svc1, evs, res)

/-- `TokenService::manual_refresh` (token.rs lines 384-398): the same body
as `start_refresh_loop`. -/
def manual_refresh (env : AuthEnv) (svc : SvcState) :
    SvcState × List Ev × Except TokenError Unit :=
  let (svc1, evs, res) :=
    if svc.config.is_static_key_mode then setup_static_api_key env svc
    else authenticate env svc
  match res with
  | Except.error e =>
    let st := TokenState.failed e.message
    ({ svc1 with state := st }, evs ++ [Ev.setState st], res)
  | Except.ok _ => (svc1, evs, res)

/-- `TokenService::log_out` (token.rs lines 401-431): null out every
secret and persist (a save failure aborts with `ConfigError`); then delete
the keystore entries, the token file and — wholesale — the consumer auth
document (`fs::remove_file` of `auth.json` under the platform-local data
directory, which on Linux is the very file the synchronizer writes); reset
the state to `Idle`. -/
def log_out (saveResult : Option String) (svc : SvcState) (disk : Disk) :
    SvcState × Disk × Except TokenError Unit :=
  let config' := { svc.config with
    client_secret := none, password := none,
    refresh_token := none, static_api_key := none }
  match saveResult with
  | some m => ({ svc with config := config' }, disk, Except.error (TokenError.configError m))
  | none =>
    ({ config := config', state := TokenState.idle, lastRefresh := none },
     { disk with tokenFile := none, authDoc := DiskDoc.absent },
     Except.ok ())

/-- `TokenService::has_credentials` (token.rs lines 507-527). -/
def SvcState.has_credentials (svc : SvcState) : Bool :=
  if svc.config.is_static_key_mode then
    (nonEmptyOpt svc.config.static_api_key).isSome
  else
    (nonEmptyOpt svc.config.client_secret).isSome
      && (nonEmptyOpt svc.config.password).isSome

/-- The structural kind (Rust enum variant) of a `TokenError`. -/
inductive TokenErrorKind
  | invalidUrl
  | missingClientSecret
  | missingPassword
  | invalidResponse
  | authFailed
  | httpError
  | configError
  | ioError
  | keystoreError
deriving DecidableEq

/-- Map a `TokenError` to its variant. -/
def TokenError.kind : TokenError → TokenErrorKind
  | TokenError.invalidUrl => TokenErrorKind.invalidUrl
  | TokenError.missingClientSecret => TokenErrorKind.missingClientSecret
  | TokenError.missingPassword => TokenErrorKind.missingPassword
  | TokenError.invalidResponse => TokenErrorKind.invalidResponse
  | TokenError.authFailed _ _ => TokenErrorKind.authFailed
  | TokenError.httpError _ => TokenErrorKind.httpError
  | TokenError.configError _ => TokenErrorKind.configError
  | TokenError.ioError _ => TokenErrorKind.ioError
  | TokenError.keystoreError _ => TokenErrorKind.keystoreError

/-- The variant of the error inside a verification result, when failed. -/
def errKindOf (r : Except TokenError Unit) : Option TokenErrorKind :=
  match r with
  | Except.error e => some e.kind
  | Except.ok _ => none

/-! ## C4: effective-endpoint derivation -/

/-- The spec's first effective-endpoint example input: OAuth mode,
endpoint `http://h:9090/v1`, app `foo`. -/
def exampleOauthFoo : AppConfig :=
  { AppConfig.default with auth_mode := AuthMode.oauth, llm_endpoint := "http://h:9090/v1", ghostllm_app := some "foo" }

/-- The spec's second example input: same endpoint, no app. -/
def exampleOauthNoApp : AppConfig :=
  { AppConfig.default with auth_mode := AuthMode.oauth, llm_endpoint := "http://h:9090/v1", ghostllm_app := none }

/-- The spec's third example input: static-key mode with an arbitrary app. -/
def exampleStaticApp (app : Option String) : AppConfig :=
  { AppConfig.default with auth_mode := AuthMode.staticKey, llm_endpoint := "http://h:9090/v1", ghostllm_app := app }

/-! ## C9: unexpected JSON types make the synchronizer panic -/

/-- A pre-existing `opencode.json` whose top level is a (valid JSON)
array, with a resolvable token on disk. -/
def topLevelArrayDisk : Disk :=
  { opencodeDoc := DiskDoc.parsed (Json.arr []),
    authDoc := DiskDoc.absent,
    tokenFile := some "tok" }

/-- A pre-existing `opencode.json` whose `provider` section is a string. -/
def providerStringDisk : Disk :=
  { opencodeDoc := DiskDoc.parsed (Json.obj [("provider", Json.str "oops")]),
    authDoc := DiskDoc.absent,
    tokenFile := some "tok" }

/-! ## C6: which operations preserve sibling auth entries -/

/-- A consumer auth document holding a sibling provider entry
(`anthropic`) next to the `dymium` entry. -/
def siblingAuthFields : List (String × Json) :=
  [("anthropic", Json.obj [("type", Json.str "api"), ("key", Json.str "sk-other")]),
   ("dymium", Json.obj [("type", Json.str "oauth"), ("key", Json.str "tok")])]

/-- The service state and disk for the logout failing input. -/
def siblingSvc : SvcState :=
  { config := AppConfig.default, state := TokenState.idle, lastRefresh := none }

/-- Disk with the sibling-bearing auth document. -/
def siblingDisk : Disk :=
  { opencodeDoc := DiskDoc.absent,
    authDoc := DiskDoc.parsed (Json.obj siblingAuthFields),
    tokenFile := some "tok" }

/-- The auth record `write_auth_json` builds for the `dymium` entry. -/
def dymiumAuthRecord (config : AppConfig) (token : String) : Json :=
  let authType : String := if config.is_static_key_mode then "static" else "oauth"
  let base : List (String × Json) :=
    [("type", Json.str authType), ("key", Json.str token),
     ("endpoint", Json.str config.llm_endpoint)]
  match config.ghostllm_app with
  | some app => if app = "" then Json.obj base else Json.obj (setKey "app" (Json.str app) base)
  | none => Json.obj base

/-- Concrete service state for exercising the refresh-grant fallback:
OAuth mode with a client secret, password and stored refresh token. -/
def oauthSvc : SvcState :=
  { config := { AppConfig.default with
      client_secret := some "cs", password := some "pw", refresh_token := some "rt0" },
    state := TokenState.idle,
    lastRefresh := none }

/-- Concrete environment whose refresh grant answers 401 with an expired
token and whose password grant fails on the network. -/
def oauthEnv401 : AuthEnv :=
  { now := 0,
    refreshGrant := GrantHttp.resp 401 (Except.error "parse") "expired",
    passwordGrant := GrantHttp.netErr "connection refused",
    writeTokenErr := none,
    ensureErr := none,
    verify := VerifyHttp.connectErr }

/-- The state sequence a caller observes during a run: the state at entry
followed by every state assigned during the run. -/
def observedStates (s0 : TokenState) (evs : List Ev) : List TokenState :=
  s0 :: stateEvents evs

/-- A static-key service state for a concrete successful run. -/
def staticSvc : SvcState :=
  { config := { AppConfig.default with
      auth_mode := AuthMode.staticKey, static_api_key := some "sk" },
    state := TokenState.idle,
    lastRefresh := none }

/-- An environment whose side effects succeed and whose verification GET
answers 200. -/
def staticEnvOk : AuthEnv :=
  { now := 0,
    refreshGrant := GrantHttp.netErr "unused",
    passwordGrant := GrantHttp.netErr "unused",
    writeTokenErr := none,
    ensureErr := none,
    verify := VerifyHttp.response 200 "200 OK" "" }

/-- The field list of an entry's `options` object (empty when absent;
unspecified when `options` is present with a non-object type, in which
case the source panics anyway). -/
def optsFieldsOf (entry : List (String × Json)) : List (String × Json) :=
  match (lookupKey "options" entry).getD (Json.obj []) with
  | Json.obj os => os
  | _ => []

/-- The existing `dymium` provider entry of the C3 witness document:
stale `api`/`baseURL`/`apiKey`, plus user-set fields (`headers` inside
options, `models` override, a `custom` field). -/
def mergeEntry : List (String × Json) :=
  [("api", Json.str "http://old/v1"),
   ("options", Json.obj
     [("baseURL", Json.str "http://old/v1"),
      ("apiKey", Json.str "old-key"),
      ("headers", Json.obj [("X-Custom", Json.str "yes")])]),
   ("models", Json.str "keep"),
   ("custom", Json.num 7)]

/-- The provider section of the C3 witness document: a sibling
`anthropic` entry next to `dymium`. -/
def mergeProviders : List (String × Json) :=
  [("anthropic", Json.obj [("api", Json.str "https://api.example")]),
   ("dymium", Json.obj mergeEntry)]

/-- The C3 witness document: schema and a user `theme` field, the
provider section, and a user plugin entry. -/
def mergeFields : List (String × Json) :=
  [("$schema", Json.str "https://opencode.ai/config.json"),
   ("theme", Json.str "dark"),
   ("provider", Json.obj mergeProviders),
   ("plugin", Json.arr [Json.str "other-plugin"])]

/-- The result of the synchronizer core on the C3 witness document. -/
def mergeRun : Json × Bool :=
  match ensureCore "http://e/foo/v1" (some "K") (Json.obj mergeFields) with
  | Outcome.ok q => q
  | _ => (Json.null, false)

/-- Static-key configuration for the concrete idempotence run. -/
def idemCfg : AppConfig :=
  { AppConfig.default with auth_mode := AuthMode.staticKey, static_api_key := some "sk" }

/-- Initially empty consumer state: no documents, no token file. -/
def idemDisk : Disk :=
  { opencodeDoc := DiskDoc.absent, authDoc := DiskDoc.absent, tokenFile := none }

/-- The file-system state after the first synchronizer call. -/
def idemDisk1 : Disk :=
  match (ensure_dymium_provider idemCfg idemDisk).2 with
  | Outcome.ok d => d
  | _ => idemDisk

theorem lookupKey_setKey_self (k : String) (v : Json) (m : List (String × Json)) :
    lookupKey k (setKey k v m) = some v := by
  induction m with
  | nil => simp [setKey, lookupKey]
  | cons hd tl ih =>
    obtain ⟨k', w⟩ := hd
    by_cases h : k' = k <;> simp [setKey, lookupKey, h, ih]

theorem lookupKey_setKey_ne (k k' : String) (v : Json) (m : List (String × Json))
    (h : k' ≠ k) : lookupKey k' (setKey k v m) = lookupKey k' m := by
  induction m with
  | nil => simp [setKey, lookupKey, Ne.symm h]
  | cons hd tl ih =>
    obtain ⟨k0, w⟩ := hd
    by_cases h0 : k0 = k
    · subst h0
      simp [setKey, lookupKey, Ne.symm h]
    · by_cases h1 : k0 = k' <;> simp [setKey, lookupKey, h0, h1, h, ih]

theorem setKey_of_lookup_eq (k : String) (v : Json) (m : List (String × Json))
    (h : lookupKey k m = some v) : setKey k v m = m := by
  induction m with
  | nil => simp [lookupKey] at h
  | cons hd tl ih =>
    obtain ⟨k', w⟩ := hd
    by_cases h0 : k' = k
    · subst h0
      simp [lookupKey] at h
      simp [setKey, h]
    · simp [lookupKey, h0] at h
      simp [setKey, h0, ih h]

theorem setKey_setKey_self (k : String) (v v' : Json) (m : List (String × Json)) :
    setKey k v (setKey k v' m) = setKey k v m := by
  induction m with
  | nil => simp [setKey]
  | cons hd tl ih =>
    obtain ⟨k', w⟩ := hd
    by_cases h : k' = k <;> simp [setKey, h, ih]

/-! ## Supporting lemmas -/

theorem lookupKey_removeKey_ne (k k' : String) (m : List (String × Json))
    (h : k' ≠ k) : lookupKey k' (removeKey k m) = lookupKey k' m := by
  induction m with
  | nil => simp [removeKey]
  | cons hd tl ih =>
    obtain ⟨k0, w⟩ := hd
    by_cases h0 : k0 = k
    · subst h0
      simp [removeKey, lookupKey, Ne.symm h]
    · by_cases h1 : k0 = k' <;> simp [removeKey, lookupKey, h0, h1, h, ih]

/-- C4: `compute_base_url` is a pure function of `AppConfig` agreeing
pointwise with the specification's effective-endpoint derivation (trim
trailing slashes; in OAuth mode with a non-empty configured app name,
splice the app before the last `/v1` or append `/{app}/v1`; otherwise the
trimmed endpoint unchanged), and it produces the three concrete values
the specification lists. -/
theorem compute_base_url_matches_spec :
    (∀ config : AppConfig, compute_base_url config = specEffectiveEndpoint config)
    ∧ compute_base_url exampleOauthFoo = "http://h:9090/foo/v1"
    ∧ compute_base_url exampleOauthNoApp = "http://h:9090/v1"
    ∧ ∀ app : Option String, compute_base_url (exampleStaticApp app) = "http://h:9090/v1" := by
  refine ⟨?_, by decide, by decide, ?_⟩
  · intro config
    rcases hmode : config.auth_mode with _ | _
    · rcases happ : config.ghostllm_app with _ | app0
      · simp [compute_base_url, specEffectiveEndpoint, AppConfig.is_oauth_mode, hmode, happ]
      · by_cases h : strTrim app0 = "" <;>
          simp [compute_base_url, specEffectiveEndpoint, AppConfig.is_oauth_mode, hmode, happ, h]
    · simp [compute_base_url, specEffectiveEndpoint, AppConfig.is_oauth_mode, hmode]
  · intro app
    have h : trimEndSlashes "http://h:9090/v1" = "http://h:9090/v1" := by decide
    simp [compute_base_url, AppConfig.is_oauth_mode, exampleStaticApp, h]

/-! ## C10: configuration loading is total -/

/-- C10: `AppConfig::load` never reports failure: a missing, unreadable
or malformed configuration file yields the built-in default configuration
(OAuth mode, the built-in endpoint and Keycloak parameters, a 60-second
refresh interval, no secrets); only a file that parses yields its own
contents. -/
theorem appConfig_load_total_defaults :
    (∀ m, AppConfig.load ConfigFile.missing = AppConfig.default
        ∧ AppConfig.load (ConfigFile.unreadable m) = AppConfig.default
        ∧ AppConfig.load (ConfigFile.malformed m) = AppConfig.default)
    ∧ (∀ c, AppConfig.load (ConfigFile.valid c) = c)
    ∧ AppConfig.default.auth_mode = AuthMode.oauth
    ∧ AppConfig.default.llm_endpoint = "http://spoofcorp.llm.dymium.home:9090/v1"
    ∧ AppConfig.default.keycloak_url = "https://192.168.50.100:9173"
    ∧ AppConfig.default.realm = "dymium"
    ∧ AppConfig.default.client_id = "dymium"
    ∧ AppConfig.default.refresh_interval_seconds = 60
    ∧ AppConfig.default.client_secret = none
    ∧ AppConfig.default.password = none
    ∧ AppConfig.default.refresh_token = none
    ∧ AppConfig.default.static_api_key = none := by
  refine ⟨fun m => ⟨rfl, rfl, rfl⟩, fun c => rfl, ?_⟩
  repeat constructor

/-! ## C8: failure-text classification -/

/-- C8: the display classification of a `Failed` error text is a
deterministic function of the message, agreeing with the specification's
marker lists under case-insensitive substring matching (it depends only on
the lowercased message), as witnessed on one representative message per
category. -/
theorem classifyFailedError_spec :
    (∀ msg, classifyFailedError msg = specClassify msg)
    ∧ (∀ m1 m2, strLower m1 = strLower m2 → classifyFailedError m1 = classifyFailedError m2)
    ∧ classifyFailedError
        "Config error: LLM endpoint rejected the API key (401 Unauthorized)"
        = FailureCategory.unauthorized
    ∧ classifyFailedError
        "Config error: LLM endpoint timed out (http://h:9090/v1)"
        = FailureCategory.endpointTimeout
    ∧ classifyFailedError
        "Config error: Cannot reach LLM endpoint (http://h:9090/v1)"
        = FailureCategory.endpointUnreachable
    ∧ classifyFailedError
        "Config error: Failed to update OpenCode config: IO error: denied"
        = FailureCategory.opencodeConfigError
    ∧ classifyFailedError "Auth failed (500): upstream exploded"
        = FailureCategory.genericError := by
  refine ⟨?_, ?_, by decide, by decide, by decide, by decide, by decide⟩
  · intro msg
    simp [classifyFailedError, specClassify, List.any_cons, List.any_nil, Bool.or_assoc]
  · intro m1 m2 h
    simp only [classifyFailedError]
    rw [h]

/-! ## C7: classification of a 401 during endpoint verification -/

/-- C7 counterexample: the claim says a 401 during verification fails with
an error of a DISTINCT KIND, distinguishable from the generic
endpoint-error and config-sync-failure kinds.  In the code all three are
the same `TokenError::ConfigError` variant: at the concrete inputs below,
the 401 failure, a generic 500 failure and a config-sync failure all have
kind `configError`. -/
theorem verify401_kind_not_distinct :
    errKindOf (verify_endpoint AppConfig.default (VerifyHttp.response 401 "401 Unauthorized" ""))
      = some TokenErrorKind.configError
    ∧ errKindOf (verify_endpoint AppConfig.default
        (VerifyHttp.response 500 "500 Internal Server Error" ""))
      = some TokenErrorKind.configError
    ∧ (TokenError.configError "Failed to update OpenCode config: IO error: denied").kind
      = TokenErrorKind.configError := by
  refine ⟨by decide, by decide, rfl⟩

/-- C7 amended: a 401 during verification fails with
`TokenError::ConfigError` carrying the fixed message
`LLM endpoint rejected the API key (401 Unauthorized)` — the same error
kind as the generic endpoint errors and config-sync failures, but with a
message text that is distinct and that the display classification maps to
the `unauthorized` category, while a generic endpoint failure and a
config-sync failure map to different categories. -/
theorem verify401_distinct_message :
    (∀ (config : AppConfig) (statusDisplay body : String),
      verify_endpoint config (VerifyHttp.response 401 statusDisplay body)
        = Except.error (TokenError.configError
            "LLM endpoint rejected the API key (401 Unauthorized)"))
    ∧ classifyFailedError
        (TokenError.configError
          "LLM endpoint rejected the API key (401 Unauthorized)").message
        = FailureCategory.unauthorized
    ∧ classifyFailedError
        (TokenError.configError
          "LLM endpoint returned 500 Internal Server Error â€” check endpoint URL").message
        = FailureCategory.genericError
    ∧ classifyFailedError
        (TokenError.configError
          "Failed to update OpenCode config: IO error: denied").message
        = FailureCategory.opencodeConfigError := by
  refine ⟨?_, by decide, by decide, by decide⟩
  intro config statusDisplay body
  simp [verify_endpoint, isSuccessStatus]

/-- C9 (code bug): on a pre-existing consumer config document whose top
level — or whose `provider` section — has an unexpected JSON type,
`ensure_dymium_provider` panics (`as_object_mut().unwrap()` on `None`,
opencode.rs lines 76-78 and 94) instead of returning an error value. -/
theorem ensure_crashes_on_unexpected_types :
    (ensure_dymium_provider AppConfig.default topLevelArrayDisk).2
      = Outcome.crash "opencode.json top level is not a JSON object"
    ∧ (ensure_dymium_provider AppConfig.default providerStringDisk).2
      = Outcome.crash "provider section is not a JSON object" := by
  constructor <;> rfl

/-- C6 (code bug): `log_out` (token.rs lines 419-423) removes the entire
consumer auth document file rather than only the `dymium` entry: starting
from an auth document that contains a sibling `anthropic` entry, a
successful logout leaves the auth document absent — the sibling entry is
destroyed, contradicting the sibling-preservation invariant that
`write_auth_json` and `do_clear_dymium_auth` do maintain. -/
theorem log_out_destroys_sibling_auth_entries :
    lookupKey "anthropic" siblingAuthFields
      = some (Json.obj [("type", Json.str "api"), ("key", Json.str "sk-other")])
    ∧ (log_out none siblingSvc siblingDisk).2.1.authDoc = DiskDoc.absent
    ∧ (log_out none siblingSvc siblingDisk).2.2 = Except.ok () := by
  refine ⟨rfl, rfl, rfl⟩

/-- The auth-record upsert replaces only the `dymium` entry: on an
object-shaped document it sets `dymium` to the computed record and leaves
the lookup of every other key unchanged; an absent or malformed document
is treated as empty, not as an error. -/
theorem write_auth_json_preserves_siblings (config : AppConfig) (token : String)
    (m : List (String × Json)) :
    write_auth_json config token (DiskDoc.parsed (Json.obj m))
      = Outcome.ok (Json.obj (setKey "dymium" (dymiumAuthRecord config token) m))
    ∧ (∀ k, k ≠ "dymium" →
        lookupKey k (setKey "dymium" (dymiumAuthRecord config token) m) = lookupKey k m)
    ∧ write_auth_json config token DiskDoc.absent
      = Outcome.ok (Json.obj (setKey "dymium" (dymiumAuthRecord config token) []))
    ∧ ∀ msg, write_auth_json config token (DiskDoc.malformed msg)
      = Outcome.ok (Json.obj (setKey "dymium" (dymiumAuthRecord config token) [])) := by
  refine ⟨?_, ?_, ?_, ?_⟩
  · simp [write_auth_json, dymiumAuthRecord]
  · intro k hk
    exact lookupKey_setKey_ne _ _ _ _ hk
  · simp [write_auth_json, dymiumAuthRecord]
  · intro msg
    simp [write_auth_json, dymiumAuthRecord]

/-- Clearing removes only the `dymium` entry: lookups of every other key
are unchanged, and an absent document (or one without the entry) is a
no-op rather than an error. -/
theorem do_clear_dymium_auth_preserves_siblings (m : List (String × Json)) :
    (∀ k, k ≠ "dymium" →
        (do_clear_dymium_auth (DiskDoc.parsed (Json.obj m))).1
          = DiskDoc.parsed (Json.obj (removeKey "dymium" m))
          ∨ (do_clear_dymium_auth (DiskDoc.parsed (Json.obj m))).1
          = DiskDoc.parsed (Json.obj m))
    ∧ (∀ k, k ≠ "dymium" → lookupKey k (removeKey "dymium" m) = lookupKey k m)
    ∧ do_clear_dymium_auth DiskDoc.absent = (DiskDoc.absent, []) := by
  refine ⟨?_, ?_, rfl⟩
  · intro k hk
    rcases h : lookupKey "dymium" m with _ | v
    · right
      simp [do_clear_dymium_auth, h]
    · left
      simp [do_clear_dymium_auth, h]
  · intro k hk
    exact lookupKey_removeKey_ne _ _ _ hk

/-! ## C5: refresh-token invalidation on 400/401 -/

/-- `perform_password_grant` emits exactly its entry event: the grant
starts with whatever configuration the service holds at that point. -/
theorem perform_password_grant_events (env : AuthEnv) (svc : SvcState) :
    (perform_password_grant env svc).1 = [Ev.passwordGrantStart svc.config] := by
  rcases h1 : nonEmptyOpt svc.config.client_secret with _ | cs
  · simp [perform_password_grant, h1]
  · rcases h2 : nonEmptyOpt svc.config.password with _ | pw
    · simp [perform_password_grant, h1, h2]
    · rcases h3 : env.passwordGrant with m | ⟨s, pb, bt⟩
      · simp [perform_password_grant, h1, h2, h3]
      · rcases pb with m | r <;> by_cases h4 : isSuccessStatus s <;>
          simp [perform_password_grant, h1, h2, h3, h4]

/-- C5: during the OAuth path, a refresh-grant HTTP 400/401 clears the
stored refresh token and attempts a config save before the password-grant
fallback runs; any other refresh-grant failure (network error, other
non-2xx status) leaves the configuration untouched, and in both cases the
password grant is still attempted, observing exactly the configuration
the refresh grant left behind. -/
theorem refresh_grant_failure_handling :
    ∀ (env : AuthEnv) (svc : SvcState) (cs : String),
      svc.config.client_secret = some cs → cs ≠ "" →
      -- (a) 400/401: token cleared, save attempted, error returned
      (∀ status parsedBody bodyText,
        env.refreshGrant = GrantHttp.resp status parsedBody bodyText →
        (status = 400 ∨ status = 401) →
        perform_refresh_token_grant env svc
          = ({ svc with config := { svc.config with refresh_token := none } },
             [Ev.refreshGrantStart svc.config,
              Ev.saveConfigAttempt { svc.config with refresh_token := none }],
             Except.error (TokenError.authFailed status bodyText)))
      ∧ -- (b) network failure: config untouched, no save event
      (∀ m, env.refreshGrant = GrantHttp.netErr m →
        perform_refresh_token_grant env svc
          = (svc, [Ev.refreshGrantStart svc.config],
             Except.error (TokenError.httpError m)))
      ∧ -- (c) other non-2xx (e.g. 5xx): config untouched, no save event
      (∀ status parsedBody bodyText,
        env.refreshGrant = GrantHttp.resp status parsedBody bodyText →
        isSuccessStatus status = false →
        status ≠ 400 → status ≠ 401 →
        perform_refresh_token_grant env svc
          = (svc, [Ev.refreshGrantStart svc.config],
             Except.error (TokenError.authFailed status bodyText)))
      ∧ -- (d) after any refresh-grant failure, `authenticate` runs the
         -- password grant, starting it with the configuration the refresh
         -- grant produced (cleared on 400/401, unchanged otherwise)
      (∀ rt, svc.config.refresh_token = some rt →
        ∀ e, (perform_refresh_token_grant env
                { svc with state := TokenState.authenticating }).2.2 = Except.error e →
        ∃ rest,
          (authenticate env svc).2.1
            = [Ev.setState TokenState.authenticating]
              ++ (perform_refresh_token_grant env
                    { svc with state := TokenState.authenticating }).2.1
              ++ [Ev.passwordGrantStart
                    (perform_refresh_token_grant env
                      { svc with state := TokenState.authenticating }).1.config]
              ++ rest) := by
  intro env svc cs hcs hcsne
  have hne : nonEmptyOpt svc.config.client_secret = some cs := by
    simp [nonEmptyOpt, hcs, hcsne]
  refine ⟨?_, ?_, ?_, ?_⟩
  · intro status pb bt hg hor
    rcases hor with h | h <;> subst h <;>
      simp [perform_refresh_token_grant, hne, hg, isSuccessStatus]
  · intro m hg
    simp [perform_refresh_token_grant, hne, hg]
  · intro status pb bt hg hs h400 h401
    simp [perform_refresh_token_grant, hne, hg, hs, h400, h401]
  · intro rt hrt e herr
    rcases hg : perform_refresh_token_grant env { svc with state := TokenState.authenticating }
      with ⟨svc1, evsR, res1⟩
    rw [hg] at herr
    simp only at herr
    rcases hp : perform_password_grant env svc1 with ⟨evsP, res2⟩
    have hevsP : evsP = [Ev.passwordGrantStart svc1.config] := by
      have := perform_password_grant_events env svc1
      rw [hp] at this
      exact this
    rcases res2 with e2 | r2
    · refine ⟨[], ?_⟩
      simp [authenticate, hrt, hg, herr, hp, hevsP]
    · refine ⟨(handle_successful_auth env svc1 r2).2.1, ?_⟩
      simp [authenticate, hrt, hg, herr, hp, hevsP]

/-- Witness for `refresh_grant_failure_handling`: at the concrete 401
input the refresh grant clears the stored refresh token, records the save
attempt, and returns the auth failure. -/
theorem refresh_grant_failure_handling_witness :
    perform_refresh_token_grant oauthEnv401 oauthSvc
      = ({ oauthSvc with config := { oauthSvc.config with refresh_token := none } },
         [Ev.refreshGrantStart oauthSvc.config,
          Ev.saveConfigAttempt { oauthSvc.config with refresh_token := none }],
         Except.error (TokenError.authFailed 401 "expired")) :=
  (refresh_grant_failure_handling oauthEnv401 oauthSvc "cs" rfl (by decide)).1
    401 (Except.error "parse") "expired" rfl (Or.inr rfl)

/-! ## C2: the state machine of a lifecycle run -/

theorem stateEvents_append (a b : List Ev) :
    stateEvents (a ++ b) = stateEvents a ++ stateEvents b := by
  simp [stateEvents]

/-- The refresh-token grant emits no state assignment and leaves the
`state` field untouched. -/
theorem perform_refresh_token_grant_no_states (env : AuthEnv) (svc : SvcState) :
    stateEvents (perform_refresh_token_grant env svc).2.1 = []
    ∧ (perform_refresh_token_grant env svc).1.state = svc.state := by
  rcases h1 : nonEmptyOpt svc.config.client_secret with _ | cs
  · simp [perform_refresh_token_grant, h1, stateEvents]
  · rcases h3 : env.refreshGrant with m | ⟨s, pb, bt⟩
    · simp [perform_refresh_token_grant, h1, h3, stateEvents]
    · by_cases h4 : isSuccessStatus s
      · rcases pb with m | r <;> simp [perform_refresh_token_grant, h1, h3, h4, stateEvents]
      · by_cases h5 : s = 400 ∨ s = 401 <;>
          simp [perform_refresh_token_grant, h1, h3, h4, h5, stateEvents]

/-- Case characterization of `handle_successful_auth`: on success it
assigns exactly `Verifying` then `Authenticated{access_token, now +
expires_in}` and returns with that state; on failure it assigns at most
`Verifying` and never `Authenticated`. -/
theorem handle_successful_auth_cases (env : AuthEnv) (svc : SvcState)
    (r : KeycloakTokenResponse) :
    ((handle_successful_auth env svc r).2.2 = Except.ok ()
      ∧ stateEvents (handle_successful_auth env svc r).2.1
          = [TokenState.verifying,
             TokenState.authenticated r.access_token (env.now + r.expires_in)]
      ∧ (handle_successful_auth env svc r).1.state
          = TokenState.authenticated r.access_token (env.now + r.expires_in))
    ∨ ((∃ e, (handle_successful_auth env svc r).2.2 = Except.error e)
      ∧ (stateEvents (handle_successful_auth env svc r).2.1 = []
          ∨ stateEvents (handle_successful_auth env svc r).2.1 = [TokenState.verifying])) := by
  rcases hrt : r.refresh_token with _ | rt
  · rcases hw : env.writeTokenErr with _ | wm
    · rcases hen : env.ensureErr with _ | em
      · rcases hv : verify_endpoint svc.config env.verify with e0 | u0
        · right
          exact ⟨⟨e0, by simp [handle_successful_auth, hrt, hw, hen, hv]⟩,
                 Or.inr (by simp [handle_successful_auth, hrt, hw, hen, hv, stateEvents])⟩
        · left
          refine ⟨by simp [handle_successful_auth, hrt, hw, hen, hv], ?_, ?_⟩ <;>
            simp [handle_successful_auth, hrt, hw, hen, hv, stateEvents]
      · right
        exact ⟨⟨TokenError.configError ("Failed to update OpenCode config: " ++ em),
                by simp [handle_successful_auth, hrt, hw, hen]⟩,
               Or.inl (by simp [handle_successful_auth, hrt, hw, hen, stateEvents])⟩
    · right
      exact ⟨⟨TokenError.ioError wm, by simp [handle_successful_auth, hrt, hw]⟩,
             Or.inl (by simp [handle_successful_auth, hrt, hw, stateEvents])⟩
  · rcases hw : env.writeTokenErr with _ | wm
    · rcases hen : env.ensureErr with _ | em
      · rcases hv : verify_endpoint { svc.config with refresh_token := some rt } env.verify
          with e0 | u0
        · right
          exact ⟨⟨e0, by simp [handle_successful_auth, hrt, hw, hen, hv]⟩,
                 Or.inr (by simp [handle_successful_auth, hrt, hw, hen, hv, stateEvents])⟩
        · left
          refine ⟨by simp [handle_successful_auth, hrt, hw, hen, hv], ?_, ?_⟩ <;>
            simp [handle_successful_auth, hrt, hw, hen, hv, stateEvents]
      · right
        exact ⟨⟨TokenError.configError ("Failed to update OpenCode config: " ++ em),
                by simp [handle_successful_auth, hrt, hw, hen]⟩,
               Or.inl (by simp [handle_successful_auth, hrt, hw, hen, stateEvents])⟩
    · right
      exact ⟨⟨TokenError.ioError wm, by simp [handle_successful_auth, hrt, hw]⟩,
             Or.inl (by simp [handle_successful_auth, hrt, hw, stateEvents])⟩

@[simp] theorem stateEvents_nil : stateEvents [] = [] := rfl

@[simp] theorem stateEvents_cons_setState (s : TokenState) (l : List Ev) :
    stateEvents (Ev.setState s :: l) = s :: stateEvents l := rfl

@[simp] theorem stateEvents_cons_save (c : AppConfig) (l : List Ev) :
    stateEvents (Ev.saveConfigAttempt c :: l) = stateEvents l := rfl

@[simp] theorem stateEvents_cons_writeTok (t : String) (l : List Ev) :
    stateEvents (Ev.writeTokenFile t :: l) = stateEvents l := rfl

@[simp] theorem stateEvents_cons_ensure (c : AppConfig) (l : List Ev) :
    stateEvents (Ev.ensureProviderCall c :: l) = stateEvents l := rfl

@[simp] theorem stateEvents_cons_refreshStart (c : AppConfig) (l : List Ev) :
    stateEvents (Ev.refreshGrantStart c :: l) = stateEvents l := rfl

@[simp] theorem stateEvents_cons_passwordStart (c : AppConfig) (l : List Ev) :
    stateEvents (Ev.passwordGrantStart c :: l) = stateEvents l := rfl

@[simp] theorem stateEvents_cons_verifyStart (l : List Ev) :
    stateEvents (Ev.verifyStart :: l) = stateEvents l := rfl

attribute [simp] stateEvents_append

/-- Case characterization of `authenticate`: a successful run assigns
exactly `Authenticating`, `Verifying`, `Authenticated{..}`; a failing run
assigns `Authenticating` and at most `Verifying`, never `Authenticated`. -/
theorem authenticate_cases (env : AuthEnv) (svc : SvcState) :
    (∃ t x, (authenticate env svc).2.2 = Except.ok ()
      ∧ stateEvents (authenticate env svc).2.1
          = [TokenState.authenticating, TokenState.verifying, TokenState.authenticated t x]
      ∧ (authenticate env svc).1.state = TokenState.authenticated t x)
    ∨ ((∃ e, (authenticate env svc).2.2 = Except.error e)
      ∧ (stateEvents (authenticate env svc).2.1 = [TokenState.authenticating]
          ∨ stateEvents (authenticate env svc).2.1
              = [TokenState.authenticating, TokenState.verifying])) := by
  rcases hrt : svc.config.refresh_token with _ | rt
  · -- no refresh token: password grant directly
    rcases hp : perform_password_grant env { svc with state := TokenState.authenticating }
      with ⟨evsP, res2⟩
    have hevsP : evsP = [Ev.passwordGrantStart svc.config] := by
      have h := perform_password_grant_events env { svc with state := TokenState.authenticating }
      rw [hp] at h
      exact h
    rcases res2 with e2 | r2
    · right
      refine ⟨⟨e2, ?_⟩, Or.inl ?_⟩ <;>
        simp [authenticate, hrt, hp, hevsP]
    · rcases handle_successful_auth_cases env { svc with state := TokenState.authenticating } r2
        with ⟨hok, hse, hfs⟩ | ⟨⟨e3, he3⟩, hse⟩
      · left
        refine ⟨r2.access_token, env.now + r2.expires_in, ?_, ?_, ?_⟩ <;>
          simp [authenticate, hrt, hp, hevsP, hok, hse, hfs]
      · right
        refine ⟨⟨e3, ?_⟩, ?_⟩
        · simp [authenticate, hrt, hp, hevsP, he3]
        · rcases hse with h | h <;>
            [left; right] <;>
            simp [authenticate, hrt, hp, hevsP, h]
  · -- refresh token present
    rcases hg : perform_refresh_token_grant env { svc with state := TokenState.authenticating }
      with ⟨svc1, evsR, res1⟩
    have hR : stateEvents evsR = [] := by
      have h := (perform_refresh_token_grant_no_states env
        { svc with state := TokenState.authenticating }).1
      rw [hg] at h
      exact h
    rcases res1 with e1 | r1
    · -- refresh failed: fall back to password grant on svc1
      rcases hp : perform_password_grant env svc1 with ⟨evsP, res2⟩
      have hevsP : evsP = [Ev.passwordGrantStart svc1.config] := by
        have h := perform_password_grant_events env svc1
        rw [hp] at h
        exact h
      rcases res2 with e2 | r2
      · right
        refine ⟨⟨e2, ?_⟩, Or.inl ?_⟩ <;>
          simp [authenticate, hrt, hg, hp, hevsP, hR]
      · rcases handle_successful_auth_cases env svc1 r2
          with ⟨hok, hse, hfs⟩ | ⟨⟨e3, he3⟩, hse⟩
        · left
          refine ⟨r2.access_token, env.now + r2.expires_in, ?_, ?_, ?_⟩ <;>
            simp [authenticate, hrt, hg, hp, hevsP, hR, hok, hse, hfs,
              stateEvents_append]
        · right
          refine ⟨⟨e3, ?_⟩, ?_⟩
          · simp [authenticate, hrt, hg, hp, hevsP, he3]
          · rcases hse with h | h <;>
              [left; right] <;>
              simp [authenticate, hrt, hg, hp, hevsP, hR, h]
    · -- refresh succeeded
      rcases handle_successful_auth_cases env svc1 r1
        with ⟨hok, hse, hfs⟩ | ⟨⟨e3, he3⟩, hse⟩
      · left
        refine ⟨r1.access_token, env.now + r1.expires_in, ?_, ?_, ?_⟩ <;>
          simp [authenticate, hrt, hg, hR, hok, hse, hfs]
      · right
        refine ⟨⟨e3, ?_⟩, ?_⟩
        · simp [authenticate, hrt, hg, he3]
        · rcases hse with h | h <;>
            [left; right] <;>
            simp [authenticate, hrt, hg, hR, h]

/-- Case characterization of `setup_static_api_key`: on success it assigns
exactly `Authenticating`, `Verifying`, `Authenticated{key, now + 365
days}`; on failure it assigns at most `Authenticating` (and possibly
`Verifying`), never `Authenticated`. -/
theorem setup_static_api_key_cases (env : AuthEnv) (svc : SvcState) :
    (∃ t x, (setup_static_api_key env svc).2.2 = Except.ok ()
      ∧ stateEvents (setup_static_api_key env svc).2.1
          = [TokenState.authenticating, TokenState.verifying, TokenState.authenticated t x]
      ∧ (setup_static_api_key env svc).1.state = TokenState.authenticated t x)
    ∨ ((∃ e, (setup_static_api_key env svc).2.2 = Except.error e)
      ∧ (stateEvents (setup_static_api_key env svc).2.1 = []
          ∨ stateEvents (setup_static_api_key env svc).2.1 = [TokenState.authenticating]
          ∨ stateEvents (setup_static_api_key env svc).2.1
              = [TokenState.authenticating, TokenState.verifying])) := by
  rcases hk : nonEmptyOpt svc.config.static_api_key with _ | key
  · right
    exact ⟨⟨TokenError.configError "No static API key configured",
            by simp [setup_static_api_key, hk]⟩,
           Or.inl (by simp [setup_static_api_key, hk])⟩
  · rcases hw : env.writeTokenErr with _ | wm
    · rcases hen : env.ensureErr with _ | em
      · rcases hv : verify_endpoint svc.config env.verify with e0 | u0
        · right
          exact ⟨⟨e0, by simp [setup_static_api_key, hk, hw, hen, hv]⟩,
                 Or.inr (Or.inr (by simp [setup_static_api_key, hk, hw, hen, hv]))⟩
        · left
          refine ⟨key, env.now + 365 * 86400, ?_, ?_, ?_⟩ <;>
            simp [setup_static_api_key, hk, hw, hen, hv]
      · right
        exact ⟨⟨TokenError.configError ("Failed to update OpenCode config: " ++ em),
                by simp [setup_static_api_key, hk, hw, hen]⟩,
               Or.inr (Or.inl (by simp [setup_static_api_key, hk, hw, hen]))⟩
    · right
      exact ⟨⟨TokenError.ioError wm, by simp [setup_static_api_key, hk, hw]⟩,
             Or.inr (Or.inl (by simp [setup_static_api_key, hk, hw]))⟩

/-- Case characterization of `start_refresh_loop`: a successful run ends
`Authenticated` having assigned exactly the three-phase sequence; a
failing run ends `Failed{message}` with the failure as the last assigned
state and no `Authenticated` assignment. -/
theorem start_refresh_loop_cases (env : AuthEnv) (svc : SvcState) :
    (∃ t x, (start_refresh_loop env svc).2.2 = Except.ok ()
      ∧ stateEvents (start_refresh_loop env svc).2.1
          = [TokenState.authenticating, TokenState.verifying, TokenState.authenticated t x]
      ∧ (start_refresh_loop env svc).1.state = TokenState.authenticated t x)
    ∨ (∃ e, (start_refresh_loop env svc).2.2 = Except.error e
      ∧ (start_refresh_loop env svc).1.state = TokenState.failed e.message
      ∧ (stateEvents (start_refresh_loop env svc).2.1 = [TokenState.failed e.message]
          ∨ stateEvents (start_refresh_loop env svc).2.1
              = [TokenState.authenticating, TokenState.failed e.message]
          ∨ stateEvents (start_refresh_loop env svc).2.1
              = [TokenState.authenticating, TokenState.verifying,
                 TokenState.failed e.message])) := by
  by_cases hmode : svc.config.is_static_key_mode
  · rcases hrun : setup_static_api_key env svc with ⟨svc1, evs, res⟩
    have hcase := setup_static_api_key_cases env svc
    rw [hrun] at hcase
    simp only at hcase
    rcases res with e | u
    · rcases hcase with ⟨t, x, hok, _, _⟩ | ⟨⟨e', he'⟩, hse⟩
      · exact absurd hok (by simp)
      · right
        have hee : e' = e := by
          have := he'
          simp at this
          exact this.symm
        subst hee
        refine ⟨e', by simp [start_refresh_loop, hmode, hrun], ?_, ?_⟩
        · simp [start_refresh_loop, hmode, hrun]
        · rcases hse with h | h | h
          · exact Or.inl (by simp [start_refresh_loop, hmode, hrun, h])
          · exact Or.inr (Or.inl (by simp [start_refresh_loop, hmode, hrun, h]))
          · exact Or.inr (Or.inr (by simp [start_refresh_loop, hmode, hrun, h]))
    · rcases hcase with ⟨t, x, hok, hse, hfs⟩ | ⟨⟨e', he'⟩, hse⟩
      · left
        refine ⟨t, x, ?_, ?_, ?_⟩ <;> simp [start_refresh_loop, hmode, hrun, hse, hfs]
      · exact absurd he' (by simp)
  · rcases hrun : authenticate env svc with ⟨svc1, evs, res⟩
    have hcase := authenticate_cases env svc
    rw [hrun] at hcase
    simp only at hcase
    rcases res with e | u
    · rcases hcase with ⟨t, x, hok, _, _⟩ | ⟨⟨e', he'⟩, hse⟩
      · exact absurd hok (by simp)
      · right
        have hee : e' = e := by
          have := he'
          simp at this
          exact this.symm
        subst hee
        refine ⟨e', by simp [start_refresh_loop, hmode, hrun], ?_, ?_⟩
        · simp [start_refresh_loop, hmode, hrun]
        · rcases hse with h | h
          · exact Or.inr (Or.inl (by simp [start_refresh_loop, hmode, hrun, h]))
          · exact Or.inr (Or.inr (by simp [start_refresh_loop, hmode, hrun, h]))
    · rcases hcase with ⟨t, x, hok, hse, hfs⟩ | ⟨⟨e', he'⟩, hse⟩
      · left
        refine ⟨t, x, ?_, ?_, ?_⟩ <;> simp [start_refresh_loop, hmode, hrun, hse, hfs]
      · exact absurd he' (by simp)

/-- `manual_refresh` (token.rs lines 384-398) has literally the same body
as `start_refresh_loop` (lines 87-101). -/
theorem manual_refresh_eq_start_refresh_loop : manual_refresh = start_refresh_loop := rfl

/-- The state-machine contract of one run of `start_refresh_loop`. -/
theorem run_contract_aux (env : AuthEnv) (svc : SvcState) :
    ((svc.state = TokenState.idle ∨ ∃ m0, svc.state = TokenState.failed m0) →
      ∀ u, (start_refresh_loop env svc).2.2 = Except.ok u →
      ∃ t x, observedStates svc.state (start_refresh_loop env svc).2.1
        = [svc.state, TokenState.authenticating, TokenState.verifying,
           TokenState.authenticated t x])
    ∧ (∀ e, (start_refresh_loop env svc).2.2 = Except.error e →
        (observedStates svc.state (start_refresh_loop env svc).2.1).getLast?
            = some (TokenState.failed (TokenError.message e))
        ∧ ∀ t x, ¬ (TokenState.authenticated t x)
            ∈ stateEvents (start_refresh_loop env svc).2.1)
    ∧ (start_refresh_loop env svc).1.state ≠ TokenState.authenticating
    ∧ (start_refresh_loop env svc).1.state ≠ TokenState.verifying := by
  have hc := start_refresh_loop_cases env svc
  refine ⟨?_, ?_, ?_, ?_⟩
  · intro _ u hok
    rcases hc with ⟨t, x, hok', hse, hfs⟩ | ⟨e, he, hfs, hse⟩
    · exact ⟨t, x, by simp [observedStates, hse]⟩
    · rw [he] at hok
      exact absurd hok (by simp)
  · intro e he
    rcases hc with ⟨t, x, hok', hse, hfs⟩ | ⟨e', he', hfs, hse⟩
    · rw [hok'] at he
      exact absurd he (by simp)
    · rw [he] at he'
      have hee : e = e' := by
        injection he' with hh
      subst hee
      constructor
      · rcases hse with h | h | h <;> simp [observedStates, h]
      · intro t x
        rcases hse with h | h | h <;> simp [h]
  · rcases hc with ⟨t, x, _, _, hfs⟩ | ⟨e, _, hfs, _⟩ <;> simp [hfs]
  · rcases hc with ⟨t, x, _, _, hfs⟩ | ⟨e, _, hfs, _⟩ <;> simp [hfs]

/-- C2: for every run of `start_refresh_loop` or `manual_refresh`: a
successful run observes exactly `Idle|Failed → Authenticating → Verifying
→ Authenticated`; a failing run terminates at `Failed` without assigning
`Authenticated`; and on return the state is never `Authenticating` or
`Verifying`. -/
theorem lifecycle_run_state_contract (env : AuthEnv) (svc : SvcState) :
    (((svc.state = TokenState.idle ∨ ∃ m0, svc.state = TokenState.failed m0) →
      ∀ u, (start_refresh_loop env svc).2.2 = Except.ok u →
      ∃ t x, observedStates svc.state (start_refresh_loop env svc).2.1
        = [svc.state, TokenState.authenticating, TokenState.verifying,
           TokenState.authenticated t x])
    ∧ (∀ e, (start_refresh_loop env svc).2.2 = Except.error e →
        (observedStates svc.state (start_refresh_loop env svc).2.1).getLast?
            = some (TokenState.failed (TokenError.message e))
        ∧ ∀ t x, ¬ (TokenState.authenticated t x)
            ∈ stateEvents (start_refresh_loop env svc).2.1)
    ∧ (start_refresh_loop env svc).1.state ≠ TokenState.authenticating
    ∧ (start_refresh_loop env svc).1.state ≠ TokenState.verifying)
    ∧ (((svc.state = TokenState.idle ∨ ∃ m0, svc.state = TokenState.failed m0) →
      ∀ u, (manual_refresh env svc).2.2 = Except.ok u →
      ∃ t x, observedStates svc.state (manual_refresh env svc).2.1
        = [svc.state, TokenState.authenticating, TokenState.verifying,
           TokenState.authenticated t x])
    ∧ (∀ e, (manual_refresh env svc).2.2 = Except.error e →
        (observedStates svc.state (manual_refresh env svc).2.1).getLast?
            = some (TokenState.failed (TokenError.message e))
        ∧ ∀ t x, ¬ (TokenState.authenticated t x)
            ∈ stateEvents (manual_refresh env svc).2.1)
    ∧ (manual_refresh env svc).1.state ≠ TokenState.authenticating
    ∧ (manual_refresh env svc).1.state ≠ TokenState.verifying) := by
  refine ⟨run_contract_aux env svc, ?_⟩
  rw [manual_refresh_eq_start_refresh_loop]
  exact run_contract_aux env svc

/-- Witness for `lifecycle_run_state_contract`: the concrete static-key
run succeeds and observes exactly the four-state sequence from `Idle`. -/
theorem lifecycle_run_state_contract_witness :
    ∃ t x, observedStates staticSvc.state (start_refresh_loop staticEnvOk staticSvc).2.1
      = [staticSvc.state, TokenState.authenticating, TokenState.verifying,
         TokenState.authenticated t x] :=
  ((lifecycle_run_state_contract staticEnvOk staticSvc).1).1 (Or.inl rfl) () rfl

/-- Witness for `classifyFailedError_spec`: case-insensitivity discharged
at a concrete pair of messages differing only in case. -/
theorem classifyFailedError_spec_witness :
    classifyFailedError "401 UNAUTHORIZED" = classifyFailedError "401 unauthorized" :=
  classifyFailedError_spec.2.1 "401 UNAUTHORIZED" "401 unauthorized" (by decide)

/-! ## C3: the merge touches only `api`, `options.baseURL`, `options.apiKey` -/

attribute [simp] lookupKey_setKey_self

attribute [simp] lookupKey_setKey_ne

/-- `strFieldOr` ignores a `setKey` at a different key. -/
@[simp] theorem strFieldOr_setKey_ne (m : List (String × Json)) (k k' : String)
    (v : Json) (h : k' ≠ k) : strFieldOr (setKey k v m) k' = strFieldOr m k' := by
  simp [strFieldOr, lookupKey_setKey_ne k k' v m h]

/-- `optsUpdate` touches only `baseURL` and `apiKey`. -/
theorem optsUpdate_frame (eff : String) (key? : Option String)
    (os : List (String × Json)) :
    ∀ k, k ≠ "baseURL" → k ≠ "apiKey" →
      lookupKey k (optsUpdate eff key? os).1 = lookupKey k os := by
  intro k hkb hkk
  rcases key? with _ | key
  · by_cases hc2 : strFieldOr os "baseURL" = eff <;>
      simp [optsUpdate, hc2, hkb, hkk]
  · by_cases hc2 : strFieldOr os "baseURL" = eff <;>
      by_cases hc3 : strFieldOr os "apiKey" = key <;>
      simp [optsUpdate, hc2, hc3, hkb, hkk]

/-- Frame property of the in-place provider-entry update: every field of
the entry other than `api` and `options` keeps its value, and inside
`options` every field other than `baseURL` and `apiKey` keeps its value. -/
theorem updateExistingEntry_frame (eff : String) (key? : Option String)
    (entry : List (String × Json)) (p : List (String × Json) × Bool)
    (h : updateExistingEntry eff key? entry = Outcome.ok p) :
    (∀ k, k ≠ "api" → k ≠ "options" → lookupKey k p.1 = lookupKey k entry)
    ∧ ∃ opts', lookupKey "options" p.1 = some (Json.obj opts')
        ∧ ∀ k, k ≠ "baseURL" → k ≠ "apiKey" →
            lookupKey k opts' = lookupKey k (optsFieldsOf entry) := by
  by_cases hc1 : strFieldOr entry "api" = eff
  · rcases ho : lookupKey "options" entry with _ | v
    · rcases hou : optsUpdate eff key? [] with ⟨O2, c23⟩
      simp [updateExistingEntry, hc1, ho, hou] at h
      subst h
      constructor
      · intro k hka hko
        simp [hko]
      · refine ⟨O2, by simp, ?_⟩
        intro k hkb hkk
        have hfr := optsUpdate_frame eff key? [] k hkb hkk
        rw [hou] at hfr
        simpa [optsFieldsOf, ho] using hfr
    · cases v with
      | obj os =>
        rcases hou : optsUpdate eff key? os with ⟨O2, c23⟩
        simp [updateExistingEntry, hc1, ho, hou] at h
        subst h
        constructor
        · intro k hka hko
          simp [hko]
        · refine ⟨O2, by simp, ?_⟩
          intro k hkb hkk
          have hfr := optsUpdate_frame eff key? os k hkb hkk
          rw [hou] at hfr
          simpa [optsFieldsOf, ho] using hfr
      | null => simp [updateExistingEntry, hc1, ho] at h
      | bool b => simp [updateExistingEntry, hc1, ho] at h
      | num n => simp [updateExistingEntry, hc1, ho] at h
      | str s => simp [updateExistingEntry, hc1, ho] at h
      | arr xs => simp [updateExistingEntry, hc1, ho] at h
  · rcases ho : lookupKey "options" entry with _ | v
    · rcases hou : optsUpdate eff key? [] with ⟨O2, c23⟩
      simp [updateExistingEntry, hc1, ho, hou] at h
      subst h
      constructor
      · intro k hka hko
        simp [hka, hko]
      · refine ⟨O2, by simp, ?_⟩
        intro k hkb hkk
        have hfr := optsUpdate_frame eff key? [] k hkb hkk
        rw [hou] at hfr
        simpa [optsFieldsOf, ho] using hfr
    · cases v with
      | obj os =>
        rcases hou : optsUpdate eff key? os with ⟨O2, c23⟩
        simp [updateExistingEntry, hc1, ho, hou] at h
        subst h
        constructor
        · intro k hka hko
          simp [hka, hko]
        · refine ⟨O2, by simp, ?_⟩
          intro k hkb hkk
          have hfr := optsUpdate_frame eff key? os k hkb hkk
          rw [hou] at hfr
          simpa [optsFieldsOf, ho] using hfr
      | null => simp [updateExistingEntry, hc1, ho] at h
      | bool b => simp [updateExistingEntry, hc1, ho] at h
      | num n => simp [updateExistingEntry, hc1, ho] at h
      | str s => simp [updateExistingEntry, hc1, ho] at h
      | arr xs => simp [updateExistingEntry, hc1, ho] at h

/-- Shape of a successful `ensureCore` run on a document that already has
an object-shaped `provider.dymium` entry: the result document is the
input with the updated entry written back under `provider.dymium` and the
maintained plugin list written back under `plugin`. -/
theorem ensureCore_existing_shape (eff : String) (key? : Option String)
    (fields pm eobj : List (String × Json)) (q : Json × Bool)
    (hprov : lookupKey "provider" fields = some (Json.obj pm))
    (hdym : lookupKey "dymium" pm = some (Json.obj eobj))
    (hok : ensureCore eff key? (Json.obj fields) = Outcome.ok q) :
    ∃ p plugins2,
      updateExistingEntry eff key? eobj = Outcome.ok p
      ∧ q.1 = Json.obj (setKey "plugin" (Json.arr plugins2)
          (setKey "provider" (Json.obj (setKey "dymium" (Json.obj p.1) pm)) fields)) := by
  rcases hu : updateExistingEntry eff key? eobj with m | e | p
  · simp [ensureCore, hprov, hdym, hu] at hok
  · simp [ensureCore, hprov, hdym, hu] at hok
  · rcases p with ⟨entry', ch1⟩
    rcases hpl : lookupKey "plugin" fields with _ | w
    · rcases hplu : pluginListUpdate [] with ⟨P2, c23⟩
      refine ⟨(entry', ch1), P2, rfl, ?_⟩
      simp [ensureCore, hprov, hdym, hu, hpl, hplu] at hok
      subst hok
      simp
    · cases w with
      | arr ps =>
        rcases hplu : pluginListUpdate ps with ⟨P2, c23⟩
        refine ⟨(entry', ch1), P2, rfl, ?_⟩
        simp [ensureCore, hprov, hdym, hu, hpl, hplu] at hok
        subst hok
        simp
      | null => simp [ensureCore, hprov, hdym, hu, hpl] at hok
      | bool b => simp [ensureCore, hprov, hdym, hu, hpl] at hok
      | num n => simp [ensureCore, hprov, hdym, hu, hpl] at hok
      | str s => simp [ensureCore, hprov, hdym, hu, hpl] at hok
      | obj m2 => simp [ensureCore, hprov, hdym, hu, hpl] at hok

/-- C3: on a consumer config document that already contains a `dymium`
provider entry, the synchronizer core mutates at most the entry's `api`
field and its `options.baseURL` / `options.apiKey`; every other field of
the entry (headers, custom options, model overrides), every sibling
provider entry, and every other top-level field keeps its value. -/
theorem provider_entry_merge_frame (eff : String) (key? : Option String)
    (fields pm eobj : List (String × Json)) (q : Json × Bool)
    (hprov : lookupKey "provider" fields = some (Json.obj pm))
    (hdym : lookupKey "dymium" pm = some (Json.obj eobj))
    (hok : ensureCore eff key? (Json.obj fields) = Outcome.ok q) :
    ∃ fields' pm' eobj' opts',
      q.1 = Json.obj fields'
      ∧ lookupKey "provider" fields' = some (Json.obj pm')
      ∧ lookupKey "dymium" pm' = some (Json.obj eobj')
      ∧ (∀ k, k ≠ "api" → k ≠ "options" → lookupKey k eobj' = lookupKey k eobj)
      ∧ lookupKey "options" eobj' = some (Json.obj opts')
      ∧ (∀ k, k ≠ "baseURL" → k ≠ "apiKey" →
          lookupKey k opts' = lookupKey k (optsFieldsOf eobj))
      ∧ (∀ providerName, providerName ≠ "dymium" →
          lookupKey providerName pm' = lookupKey providerName pm)
      ∧ (∀ k, k ≠ "provider" → k ≠ "plugin" → lookupKey k fields' = lookupKey k fields) := by
  obtain ⟨p, P2, hu, hq⟩ := ensureCore_existing_shape eff key? fields pm eobj q hprov hdym hok
  obtain ⟨hA, opts', hOpt, hOptFr⟩ := updateExistingEntry_frame eff key? eobj p hu
  refine ⟨setKey "plugin" (Json.arr P2)
            (setKey "provider" (Json.obj (setKey "dymium" (Json.obj p.1) pm)) fields),
          setKey "dymium" (Json.obj p.1) pm, p.1, opts',
          hq, by simp, by simp, hA, hOpt, hOptFr, ?_, ?_⟩
  · intro providerName hpn
    simp [hpn]
  · intro k hk1 hk2
    simp [hk1, hk2]

/-- Witness for `provider_entry_merge_frame` at the concrete document. -/
theorem provider_entry_merge_frame_witness :
    ∃ fields' pm' eobj' opts',
      mergeRun.1 = Json.obj fields'
      ∧ lookupKey "provider" fields' = some (Json.obj pm')
      ∧ lookupKey "dymium" pm' = some (Json.obj eobj')
      ∧ (∀ k, k ≠ "api" → k ≠ "options" → lookupKey k eobj' = lookupKey k mergeEntry)
      ∧ lookupKey "options" eobj' = some (Json.obj opts')
      ∧ (∀ k, k ≠ "baseURL" → k ≠ "apiKey" →
          lookupKey k opts' = lookupKey k (optsFieldsOf mergeEntry))
      ∧ (∀ providerName, providerName ≠ "dymium" →
          lookupKey providerName pm' = lookupKey providerName mergeProviders)
      ∧ (∀ k, k ≠ "provider" → k ≠ "plugin" →
          lookupKey k fields' = lookupKey k mergeFields) :=
  provider_entry_merge_frame "http://e/foo/v1" (some "K")
    mergeFields mergeProviders mergeEntry mergeRun rfl rfl rfl

/-! ## C1: idempotence of the synchronizer -/

/-- `strFieldOr` after setting the same key to a string. -/
@[simp] theorem strFieldOr_setKey_self (m : List (String × Json)) (k s : String) :
    strFieldOr (setKey k (Json.str s) m) k = s := by
  simp [strFieldOr]

/-- `optsUpdate` is idempotent: a second pass over its own output changes
nothing. -/
theorem optsUpdate_idem (eff : String) (key? : Option String)
    (os : List (String × Json)) :
    optsUpdate eff key? (optsUpdate eff key? os).1 = ((optsUpdate eff key? os).1, false) := by
  rcases key? with _ | key
  · by_cases hc2 : strFieldOr os "baseURL" = eff <;>
      simp [optsUpdate, hc2]
  · by_cases hc2 : strFieldOr os "baseURL" = eff <;>
      by_cases hc3 : strFieldOr os "apiKey" = key <;>
      simp [optsUpdate, hc2, hc3]

attribute [simp] setKey_setKey_self

/-- The provider-entry update is idempotent: running it again on its own
output reports no change and returns the output unchanged. -/
theorem updateExistingEntry_idem (eff : String) (key? : Option String)
    (entry : List (String × Json)) (p : List (String × Json) × Bool)
    (h : updateExistingEntry eff key? entry = Outcome.ok p) :
    updateExistingEntry eff key? p.1 = Outcome.ok (p.1, false) := by
  by_cases hc1 : strFieldOr entry "api" = eff
  · rcases ho : lookupKey "options" entry with _ | v
    · rcases hou : optsUpdate eff key? [] with ⟨O2, c23⟩
      simp [updateExistingEntry, hc1, ho, hou] at h
      subst h
      have hidem := optsUpdate_idem eff key? []
      rw [hou] at hidem
      simp only at hidem
      simp [updateExistingEntry, hc1, ho, hidem]
    · cases v with
      | obj os =>
        rcases hou : optsUpdate eff key? os with ⟨O2, c23⟩
        simp [updateExistingEntry, hc1, ho, hou] at h
        subst h
        have hidem := optsUpdate_idem eff key? os
        rw [hou] at hidem
        simp only at hidem
        simp [updateExistingEntry, hc1, ho, hidem]
      | null => simp [updateExistingEntry, hc1, ho] at h
      | bool b => simp [updateExistingEntry, hc1, ho] at h
      | num n => simp [updateExistingEntry, hc1, ho] at h
      | str s => simp [updateExistingEntry, hc1, ho] at h
      | arr xs => simp [updateExistingEntry, hc1, ho] at h
  · rcases ho : lookupKey "options" entry with _ | v
    · rcases hou : optsUpdate eff key? [] with ⟨O2, c23⟩
      simp [updateExistingEntry, hc1, ho, hou] at h
      subst h
      have hidem := optsUpdate_idem eff key? []
      rw [hou] at hidem
      simp only at hidem
      simp [updateExistingEntry, hc1, ho, hidem]
    · cases v with
      | obj os =>
        rcases hou : optsUpdate eff key? os with ⟨O2, c23⟩
        simp [updateExistingEntry, hc1, ho, hou] at h
        subst h
        have hidem := optsUpdate_idem eff key? os
        rw [hou] at hidem
        simp only at hidem
        simp [updateExistingEntry, hc1, ho, hidem]
      | null => simp [updateExistingEntry, hc1, ho] at h
      | bool b => simp [updateExistingEntry, hc1, ho] at h
      | num n => simp [updateExistingEntry, hc1, ho] at h
      | str s => simp [updateExistingEntry, hc1, ho] at h
      | arr xs => simp [updateExistingEntry, hc1, ho] at h

/-- A freshly created entry is already in updated form: running the
provider-entry update on it reports no change. -/
theorem newDymiumEntry_stable (eff : String) (key? : Option String) :
    updateExistingEntry eff key? (newDymiumEntryFields eff key?)
      = Outcome.ok (newDymiumEntryFields eff key?, false) := by
  rcases key? with _ | k <;>
    simp [updateExistingEntry, newDymiumEntryFields, optsUpdate, strFieldOr,
      lookupKey, setKey]

/-- Filtering twice with the same predicate is filtering once. -/
theorem filter_self_idem {α : Type} (f : α → Bool) (l : List α) :
    (l.filter f).filter f = l.filter f := by
  induction l with
  | nil => rfl
  | cons hd tl ih =>
    by_cases h : f hd <;> simp [List.filter_cons, h, ih]

/-- The plugin-list maintenance is idempotent. -/
theorem pluginListUpdate_idem (ps : List Json) :
    pluginListUpdate (pluginListUpdate ps).1 = ((pluginListUpdate ps).1, false) := by
  have hauth : isAuthPluginEntry (Json.str "dymium-auth-plugin@latest") = true := by decide
  have hstale : isStalePluginEntry (Json.str "dymium-auth-plugin@latest") = false := by decide
  by_cases hcond : (ps.filter (fun p => !isStalePluginEntry p)).any isAuthPluginEntry = true
  · simp [pluginListUpdate, hcond, filter_self_idem]
  · simp [pluginListUpdate, hcond, filter_self_idem, hauth, hstale, List.filter_append]

/-- A document already in post-run shape is a fixed point of the
synchronizer core: the run reports no change. -/
theorem ensureCore_stable (eff : String) (key? : Option String)
    (fields pm E : List (String × Json)) (P2 : List Json)
    (hE : updateExistingEntry eff key? E = Outcome.ok (E, false))
    (hP : pluginListUpdate P2 = (P2, false)) :
    ensureCore eff key?
      (Json.obj (setKey "plugin" (Json.arr P2)
        (setKey "provider" (Json.obj (setKey "dymium" (Json.obj E) pm)) fields)))
      = Outcome.ok (Json.obj (setKey "plugin" (Json.arr P2)
          (setKey "provider" (Json.obj (setKey "dymium" (Json.obj E) pm)) fields)), false) := by
  have h1 : lookupKey "provider"
      (setKey "plugin" (Json.arr P2)
        (setKey "provider" (Json.obj (setKey "dymium" (Json.obj E) pm)) fields))
      = some (Json.obj (setKey "dymium" (Json.obj E) pm)) := by simp
  have h2 : setKey "provider" (Json.obj (setKey "dymium" (Json.obj E) pm))
      (setKey "plugin" (Json.arr P2)
        (setKey "provider" (Json.obj (setKey "dymium" (Json.obj E) pm)) fields))
      = setKey "plugin" (Json.arr P2)
        (setKey "provider" (Json.obj (setKey "dymium" (Json.obj E) pm)) fields) :=
    setKey_of_lookup_eq _ _ _ h1
  have h3 : setKey "plugin" (Json.arr P2)
      (setKey "plugin" (Json.arr P2)
        (setKey "provider" (Json.obj (setKey "dymium" (Json.obj E) pm)) fields))
      = setKey "plugin" (Json.arr P2)
        (setKey "provider" (Json.obj (setKey "dymium" (Json.obj E) pm)) fields) :=
    setKey_setKey_self _ _ _ _
  simp [ensureCore, h1, hE, h2, h3, hP]

/-- Shape of any successful `ensureCore` run: the result document is the
input with some updated entry `E` (itself a fixed point of the update)
under `provider.dymium` and a maintained plugin list under `plugin`. -/
theorem ensureCore_run_shape (eff : String) (key? : Option String)
    (fields pm : List (String × Json)) (q : Json × Bool)
    (hpm : (lookupKey "provider" fields).getD (Json.obj []) = Json.obj pm)
    (hok : ensureCore eff key? (Json.obj fields) = Outcome.ok q) :
    ∃ E P2 ps0,
      q.1 = Json.obj (setKey "plugin" (Json.arr P2)
          (setKey "provider" (Json.obj (setKey "dymium" (Json.obj E) pm)) fields))
      ∧ P2 = (pluginListUpdate ps0).1
      ∧ updateExistingEntry eff key? E = Outcome.ok (E, false) := by
  rcases hdm : lookupKey "dymium" pm with _ | v
  · rcases hpl : lookupKey "plugin" fields with _ | w
    · rcases hplu : pluginListUpdate [] with ⟨P2, c23⟩
      refine ⟨newDymiumEntryFields eff key?, P2, [], ?_, by rw [hplu],
        newDymiumEntry_stable eff key?⟩
      simp [ensureCore, hpm, hdm, hpl, hplu, newDymiumEntry] at hok
      subst hok
      simp
    · cases w with
      | arr ps =>
        rcases hplu : pluginListUpdate ps with ⟨P2, c23⟩
        refine ⟨newDymiumEntryFields eff key?, P2, ps, ?_, by rw [hplu],
          newDymiumEntry_stable eff key?⟩
        simp [ensureCore, hpm, hdm, hpl, hplu, newDymiumEntry] at hok
        subst hok
        simp
      | null => simp [ensureCore, hpm, hdm, hpl] at hok
      | bool b => simp [ensureCore, hpm, hdm, hpl] at hok
      | num n => simp [ensureCore, hpm, hdm, hpl] at hok
      | str s => simp [ensureCore, hpm, hdm, hpl] at hok
      | obj m2 => simp [ensureCore, hpm, hdm, hpl] at hok
  · cases v with
    | obj eobj =>
      rcases hu : updateExistingEntry eff key? eobj with m | e | p
      · simp [ensureCore, hpm, hdm, hu] at hok
      · simp [ensureCore, hpm, hdm, hu] at hok
      · rcases p with ⟨entry', ch1⟩
        have hstab : updateExistingEntry eff key? entry' = Outcome.ok (entry', false) := by
          have hi := updateExistingEntry_idem eff key? eobj (entry', ch1) hu
          simpa using hi
        rcases hpl : lookupKey "plugin" fields with _ | w
        · rcases hplu : pluginListUpdate [] with ⟨P2, c23⟩
          refine ⟨entry', P2, [], ?_, by rw [hplu], hstab⟩
          simp [ensureCore, hpm, hdm, hu, hpl, hplu] at hok
          subst hok
          simp
        · cases w with
          | arr ps =>
            rcases hplu : pluginListUpdate ps with ⟨P2, c23⟩
            refine ⟨entry', P2, ps, ?_, by rw [hplu], hstab⟩
            simp [ensureCore, hpm, hdm, hu, hpl, hplu] at hok
            subst hok
            simp
          | null => simp [ensureCore, hpm, hdm, hu, hpl] at hok
          | bool b => simp [ensureCore, hpm, hdm, hu, hpl] at hok
          | num n => simp [ensureCore, hpm, hdm, hu, hpl] at hok
          | str s => simp [ensureCore, hpm, hdm, hu, hpl] at hok
          | obj m2 => simp [ensureCore, hpm, hdm, hu, hpl] at hok
    | null => simp [ensureCore, hpm, hdm] at hok
    | bool b => simp [ensureCore, hpm, hdm] at hok
    | num n => simp [ensureCore, hpm, hdm] at hok
    | str s => simp [ensureCore, hpm, hdm] at hok
    | arr xs => simp [ensureCore, hpm, hdm] at hok

/-- The synchronizer core is idempotent: a second run on the document a
successful run produced reports no change and returns it unchanged. -/
theorem ensureCore_idem (eff : String) (key? : Option String) (doc : Json)
    (q : Json × Bool) (h : ensureCore eff key? doc = Outcome.ok q) :
    ensureCore eff key? q.1 = Outcome.ok (q.1, false) := by
  cases doc with
  | obj fields =>
    rcases hpv : (lookupKey "provider" fields).getD (Json.obj []) with _ | b | n | s | xs | pm
    · simp [ensureCore, hpv] at h
    · simp [ensureCore, hpv] at h
    · simp [ensureCore, hpv] at h
    · simp [ensureCore, hpv] at h
    · simp [ensureCore, hpv] at h
    · obtain ⟨E, P2, ps0, hq1, hP2, hE⟩ := ensureCore_run_shape eff key? fields pm q hpv h
      have hP : pluginListUpdate P2 = (P2, false) := by
        rw [hP2]
        exact pluginListUpdate_idem ps0
      rw [hq1]
      exact ensureCore_stable eff key? fields pm E P2 hE hP
  | null => simp [ensureCore] at h
  | bool b => simp [ensureCore] at h
  | num n => simp [ensureCore] at h
  | str s => simp [ensureCore] at h
  | arr xs => simp [ensureCore] at h

/-- Re-upserting the auth record into the document it just produced is a
fixed point (the `dymium` entry is simply overwritten with itself). -/
theorem write_auth_json_idem (config : AppConfig) (token : String)
    (authDoc : DiskDoc) (j : Json)
    (h : write_auth_json config token authDoc = Outcome.ok j) :
    write_auth_json config token (DiskDoc.parsed j) = Outcome.ok j := by
  cases authDoc with
  | absent =>
    simp [write_auth_json] at h
    subst h
    simp [write_auth_json]
  | malformed m =>
    simp [write_auth_json] at h
    subst h
    simp [write_auth_json]
  | parsed jj =>
    cases jj with
    | obj m0 =>
      simp [write_auth_json] at h
      subst h
      simp [write_auth_json]
    | null => simp [write_auth_json] at h
    | bool b => simp [write_auth_json] at h
    | num n => simp [write_auth_json] at h
    | str s => simp [write_auth_json] at h
    | arr xs => simp [write_auth_json] at h

/-- C1 amended: calling `ensure_dymium_provider` a second time with
unchanged configuration and unchanged token file succeeds, leaves the
file system exactly as the first call left it (in particular the consumer
config document is identical), and performs NO write of the consumer
config document — but it does still write the plugin files and the
consumer auth record unconditionally. -/
theorem ensure_provider_second_run (config : AppConfig) (disk : Disk)
    (w1 : List WriteEv) (disk1 : Disk)
    (h : ensure_dymium_provider config disk = (w1, Outcome.ok disk1)) :
    ∃ w2, ensure_dymium_provider config disk1 = (w2, Outcome.ok disk1)
      ∧ (∀ j, ¬ WriteEv.opencodeJson j ∈ w2)
      ∧ w2.countP (fun w => w.isOpencodeWrite) = 0 := by
  rcases htok : resolve_token config disk.tokenFile with _ | tok
  · rcases hdoc : disk.opencodeDoc with _ | mm | jdoc
    · rcases hcore : ensureCore (compute_base_url config) none skeletonDoc with m | e | p
      · simp [ensure_dymium_provider, hdoc, htok, hcore] at h
      · simp [ensure_dymium_provider, hdoc, htok, hcore] at h
      · rcases p with ⟨d1, ch⟩
        simp [ensure_dymium_provider, hdoc, htok, hcore] at h
    · simp [ensure_dymium_provider, hdoc] at h
    · rcases hcore : ensureCore (compute_base_url config) none jdoc with m | e | p
      · simp [ensure_dymium_provider, hdoc, htok, hcore] at h
      · simp [ensure_dymium_provider, hdoc, htok, hcore] at h
      · rcases p with ⟨d1, ch⟩
        simp [ensure_dymium_provider, hdoc, htok, hcore] at h
  · rcases hdoc : disk.opencodeDoc with _ | mm | jdoc
    · rcases hcore : ensureCore (compute_base_url config) (some tok) skeletonDoc
        with m | e | p
      · simp [ensure_dymium_provider, hdoc, htok, hcore] at h
      · simp [ensure_dymium_provider, hdoc, htok, hcore] at h
      · rcases p with ⟨d1, ch⟩
        rcases hauth : write_auth_json config tok disk.authDoc with m | e | auth1
        · simp [ensure_dymium_provider, hdoc, htok, hcore, hauth] at h
        · simp [ensure_dymium_provider, hdoc, htok, hcore, hauth] at h
        · have hidem := write_auth_json_idem config tok disk.authDoc auth1 hauth
          have hcore2 : ensureCore (compute_base_url config) (some tok) d1
              = Outcome.ok (d1, false) := by
            simpa using ensureCore_idem (compute_base_url config) (some tok)
              skeletonDoc (d1, ch) hcore
          cases ch with
          | true =>
            simp [ensure_dymium_provider, hdoc, htok, hcore, hauth] at h
            obtain ⟨hW, hD⟩ := h
            subst hD
            refine ⟨[WriteEv.pluginPackageJson, WriteEv.pluginIndexTs,
              WriteEv.authJson auth1], ?_, ?_, ?_⟩
            · simp [ensure_dymium_provider, htok, hcore2, hidem]
            · intro j
              simp
            · rfl
          | false =>
            simp [ensure_dymium_provider, hdoc, htok, hcore, hauth] at h
            obtain ⟨hW, hD⟩ := h
            subst hD
            refine ⟨[WriteEv.pluginPackageJson, WriteEv.pluginIndexTs,
              WriteEv.authJson auth1], ?_, ?_, ?_⟩
            · simp [ensure_dymium_provider, hdoc, htok, hcore, hidem]
            · intro j
              simp
            · rfl
    · simp [ensure_dymium_provider, hdoc] at h
    · rcases hcore : ensureCore (compute_base_url config) (some tok) jdoc
        with m | e | p
      · simp [ensure_dymium_provider, hdoc, htok, hcore] at h
      · simp [ensure_dymium_provider, hdoc, htok, hcore] at h
      · rcases p with ⟨d1, ch⟩
        rcases hauth : write_auth_json config tok disk.authDoc with m | e | auth1
        · simp [ensure_dymium_provider, hdoc, htok, hcore, hauth] at h
        · simp [ensure_dymium_provider, hdoc, htok, hcore, hauth] at h
        · have hidem := write_auth_json_idem config tok disk.authDoc auth1 hauth
          have hcore2 : ensureCore (compute_base_url config) (some tok) d1
              = Outcome.ok (d1, false) := by
            simpa using ensureCore_idem (compute_base_url config) (some tok)
              jdoc (d1, ch) hcore
          cases ch with
          | true =>
            simp [ensure_dymium_provider, hdoc, htok, hcore, hauth] at h
            obtain ⟨hW, hD⟩ := h
            subst hD
            refine ⟨[WriteEv.pluginPackageJson, WriteEv.pluginIndexTs,
              WriteEv.authJson auth1], ?_, ?_, ?_⟩
            · simp [ensure_dymium_provider, htok, hcore2, hidem]
            · intro j
              simp
            · rfl
          | false =>
            simp [ensure_dymium_provider, hdoc, htok, hcore, hauth] at h
            obtain ⟨hW, hD⟩ := h
            subst hD
            refine ⟨[WriteEv.pluginPackageJson, WriteEv.pluginIndexTs,
              WriteEv.authJson auth1], ?_, ?_, ?_⟩
            · simp [ensure_dymium_provider, hdoc, htok, hcore, hidem]
            · intro j
              simp
            · rfl

/-- C1 counterexample: the claim "zero file writes during the second
call" is false.  At this concrete input the first call succeeds, and the
second call — with unchanged configuration and unchanged credential —
still performs three file writes (the two plugin files and the consumer
auth record); none of them is a consumer-config write. -/
theorem ensure_second_call_still_writes :
    (ensure_dymium_provider idemCfg idemDisk).2 = Outcome.ok idemDisk1
    ∧ (ensure_dymium_provider idemCfg idemDisk1).1.length = 3
    ∧ (ensure_dymium_provider idemCfg idemDisk1).1.countP
        (fun w => w.isOpencodeWrite) = 0 := by
  refine ⟨rfl, rfl, rfl⟩

/-- Witness for `ensure_provider_second_run` at the concrete input. -/
theorem ensure_provider_second_run_witness :
    ∃ w2, ensure_dymium_provider idemCfg idemDisk1 = (w2, Outcome.ok idemDisk1)
      ∧ (∀ j, ¬ WriteEv.opencodeJson j ∈ w2)
      ∧ w2.countP (fun w => w.isOpencodeWrite) = 0 :=
  ensure_provider_second_run idemCfg idemDisk
    (ensure_dymium_provider idemCfg idemDisk).1 idemDisk1 rfl
